import Mathlib

/-!
Verification of the `shared_ai_utils` assessment/pattern-scoring pipeline.

This file shallowly embeds the deterministic core of the repository:

* `assessment/pattern_checks.py` — `PatternViolation`, `DEFAULT_PATTERN_RULES`,
  `detect_pattern_violations`, `calculate_pattern_penalty`;
* `assessment/scorers/heuristic.py` — `HeuristicScorerConfig`, `HeuristicScorer`;
* `assessment/scorers/council_adapter.py` — score parsing and `enhance_metrics`;
* `assessment/scorers/motive.py` — `MicroMotiveScorer`;
* `assessment/engine.py` — `AssessmentEngine` (text extraction, per-path metric
  generation, path/overall aggregation, dominant path, summary, metadata).

Modelling conventions:

* Python `float` is modelled as `ℚ`.  Every numeric literal appearing in the
  sources (0.3, 0.85, 50.0, …) is an exact decimal, and no verified property
  depends on binary rounding, so exact rational arithmetic is faithful.
* Python `str` is modelled as `List Char` (`Str` below); the few `String`
  fields kept (names, severities, descriptions) use Lean `String`.
* Python dictionaries reaching the embedded code are modelled as association
  lists in insertion order — matching CPython's guaranteed iteration order.
* Regexes of the fixed rule table are embedded as explicit backtracking
  matchers (combinators `reLit` / `reStar` / `rePlus` / `reChar` below), one
  per rule, each a direct transcription of its pattern.
-/

/-- Python strings are modelled as lists of characters. -/
abbrev Str := List Char

/-- Python `\s` (ASCII range), also the character class of `str.strip()` /
`str.split()` whitespace. -/
def isPyWs (c : Char) : Bool :=
  c == ' ' || c == '\t' || c == '\n' || c == '\r' || c == '\x0b' || c == '\x0c'

/-- Python regex `\w` (ASCII range): letters, digits and underscore. -/
def isWordChar (c : Char) : Bool :=
  c.isAlphanum || c == '_'

/-- Python `needle in hay` substring test. -/
def subIn (needle : Str) : Str → Bool
  | [] => needle.isEmpty
  | c :: t => needle.isPrefixOf (c :: t) || subIn needle t

/-- Worker for `countSub`: `skip` is the number of characters still covered
by the previous match (a match consumes the whole needle before scanning
resumes). -/
def countSubAux (needle : Str) (skip : Nat) : Str → Nat
  | [] => 0
  | c :: t =>
    match skip with
    | s + 1 => countSubAux needle s t
    | 0 =>
      if needle ≠ [] && needle.isPrefixOf (c :: t) then
        1 + countSubAux needle (needle.length - 1) t
      else
        countSubAux needle 0 t

/-- Python `str.count(sub)`: non-overlapping occurrences, scanning left to
right and skipping the whole match once found. -/
def countSub (needle : Str) (hay : Str) : Nat :=
  countSubAux needle 0 hay

/-- Python `str.split("\n")`: `n` separators yield `n+1` (possibly empty)
parts; the empty string yields `[""]`. -/
def splitNl : Str → List Str
  | [] => [[]]
  | c :: t =>
    if c = '\n' then [] :: splitNl t
    else
      match splitNl t with
      | [] => [[c]]
      | l :: ls => (c :: l) :: ls

/-- Python `"\n".join(parts)`. -/
def joinNl : List Str → Str
  | [] => []
  | [x] => x
  | x :: xs => x ++ '\n' :: joinNl xs

/-- Python `str.strip()` with no argument: drop ASCII whitespace from both
ends. -/
def pyStrip (l : Str) : Str :=
  ((l.dropWhile isPyWs).reverse.dropWhile isPyWs).reverse

/-- Python `str.lower()` (ASCII fragment, which is all the sources use). -/
def pyLower (l : Str) : Str :=
  l.map Char.toLower

/-! ## Regex matchers for the default rule table

Each matcher decides whether the rule's regex matches the given line starting
at the current position (`re.search` then tries every start position, embodied
by `reSearch`).  The combinators implement full backtracking, so existence of
a match coincides with Python `re.search` truthiness. -/

/-- Match the literal `w`, then continue with `k`. -/
def reLit (w : Str) (k : Str → Bool) (l : Str) : Bool :=
  w.isPrefixOf l && k (l.drop w.length)

/-- Embeds `p*` (zero or more characters satisfying `p`), then continue with `k`,
with backtracking over the number of characters consumed. -/
def reStar (p : Char → Bool) (k : Str → Bool) : Str → Bool
  | [] => k []
  | c :: t => k (c :: t) || (p c && reStar p k t)

/-- Embeds `p+` (one or more characters satisfying `p`), then continue with `k`. -/
def rePlus (p : Char → Bool) (k : Str → Bool) : Str → Bool
  | [] => false
  | c :: t => p c && reStar p k t

/-- A single character satisfying `p`, then continue with `k`. -/
def reChar (p : Char → Bool) (k : Str → Bool) : Str → Bool
  | [] => false
  | c :: t => p c && k t

/-- Embeds `re.search`: try the position matcher at every start position (including
the empty suffix). -/
def reSearch (m : Str → Bool) : Str → Bool
  | [] => m []
  | c :: t => m (c :: t) || reSearch m t

/-- Regex `[^)]*` followed by `np\.` or `numpy`; the tail shared by both
alternatives of the `numpy_json_serialization` regex
`json\.dumps\([^)]*np\.|json\.dumps\([^)]*numpy`. -/
def npScan : Str → Bool
  | [] => false
  | c :: t =>
    "np.".data.isPrefixOf (c :: t) || "numpy".data.isPrefixOf (c :: t) ||
      (c != ')' && npScan t)

/-- Position matcher for rule `numpy_json_serialization`. -/
def m1At : Str → Bool :=
  reLit "json.dumps(".data npScan

/-- Regex `(?!if|and|or)`: the suffix must not start with any of the three words. -/
def startsIfAndOr (l : Str) : Bool :=
  "if".data.isPrefixOf l || "and".data.isPrefixOf l || "or".data.isPrefixOf l

/-- Regex `\s*(?!if|and|or)` with backtracking over the whitespace consumed. -/
def wsNeg : Str → Bool
  | [] => !startsIfAndOr []
  | c :: t => !startsIfAndOr (c :: t) || (isPyWs c && wsNeg t)

/-- Regex `[^)]*\)` then `\s*(?!if|and|or)`.  `[^)]*` cannot cross a `)`, so the
closing parenthesis consumed is necessarily the first one encountered. -/
def parenScan : Str → Bool
  | [] => false
  | c :: t => if c = ')' then wsNeg t else parenScan t

/-- Position matcher for rule `numpy_nan_inf`:
`np\.(isnan|isinf)\([^)]*\)\s*(?!if|and|or)`. -/
def m2At (l : Str) : Bool :=
  reLit "np.isnan(".data parenScan l || reLit "np.isinf(".data parenScan l

/-- The lookahead body `\s+if\s+\w+` of the `bounds_checking` rule. -/
def lk3 : Str → Bool :=
  rePlus isPyWs (reLit "if".data (rePlus isPyWs (reChar isWordChar fun _ => true)))

/-- Regex `\w*\[0\](?!\s+if\s+\w+)` — the part of `bounds_checking` after its first
word character, with backtracking over the remaining word characters. -/
def wordTail : Str → Bool
  | [] => false
  | c :: t =>
    ("[0]".data.isPrefixOf (c :: t) && !lk3 ((c :: t).drop 3)) ||
      (isWordChar c && wordTail t)

/-- Position matcher for rule `bounds_checking`: `\w+\[0\](?!\s+if\s+\w+)`. -/
def m3At : Str → Bool
  | [] => false
  | c :: t => isWordChar c && wordTail t

/-- Position matcher for rule `specific_exceptions`: `except\s*:`. -/
def m4At : Str → Bool :=
  reLit "except".data (reStar isPyWs (reLit ":".data fun _ => true))

/-- Embeds `print\s*\(` (the part of `structured_logging` after the `\b`). -/
def m5core : Str → Bool :=
  reLit "print".data (reStar isPyWs (reLit "(".data fun _ => true))

/-- Search for `\bprint\s*\(`: since `p` is a word character, the boundary
holds exactly when the preceding character (if any) is not a word character. -/
def searchR5 (prev : Option Char) : Str → Bool
  | [] => false
  | c :: t =>
    ((match prev with
      | none => true
      | some p => !isWordChar p) && m5core (c :: t)) ||
      searchR5 (some c) t

/-- Position matcher for rule `temp_file_handling`: `tempfile\.mktemp\(`. -/
def m6At : Str → Bool :=
  reLit "tempfile.mktemp(".data fun _ => true

/-- The lookahead body `\s*#\s*chunk` shared by `large_file_loading` and
`fastapi_streaming`. -/
def chunkLk : Str → Bool :=
  reStar isPyWs (reLit "#".data (reStar isPyWs (reLit "chunk".data fun _ => true)))

/-- Position matcher for rule `large_file_loading`:
`\.read\(\)(?!\s*#\s*chunk)`. -/
def m7At : Str → Bool :=
  reLit ".read()".data fun l => !chunkLk l

/-- Position matcher for rule `fastapi_streaming`:
`await\s+\w+\.read\(\)(?!\s*#\s*chunk)`. -/
def m8At : Str → Bool :=
  reLit "await".data
    (rePlus isPyWs (rePlus isWordChar (reLit ".read()".data fun l => !chunkLk l)))

/-- The character class `['\"]` of the `metadata_logic` rule. -/
def isQuoteCh (c : Char) : Bool :=
  c == '\'' || c == '"'

/-- Position matcher for rule `metadata_logic`:
`if\s+['\"].*['\"]\s+in\s+\w+\.lower\(\)` (`.` matches anything but `\n`). -/
def m9At : Str → Bool :=
  reLit "if".data
    (rePlus isPyWs
      (reChar isQuoteCh
        (reStar (fun c => c != '\n')
          (reChar isQuoteCh
            (rePlus isPyWs
              (reLit "in".data
                (rePlus isPyWs
                  (rePlus isWordChar (reLit ".lower()".data fun _ => true)))))))))

/-! ## Embedding of `assessment/pattern_checks.py` -/

/-- Embeds `PatternViolation` (a frozen dataclass in the source). -/
structure PatternViolation where
  pattern : String
  line : Nat
  code : String
  description : String
  severity : String
  confidence : ℚ := 0.8
deriving DecidableEq

/-- One entry of a rule table: the rule name, its regex (as the embedded
matcher deciding `re.search(regex, line)`), description and severity. -/
structure NamedRule where
  name : String
  matchesLine : Str → Bool
  description : String
  severity : String

/-- Rule `numpy_json_serialization` of `DEFAULT_PATTERN_RULES`. -/
def rule_numpy_json_serialization : NamedRule where
  name := "numpy_json_serialization"
  matchesLine := reSearch m1At
  description := "NumPy types in JSON serialization (use .item() or .tolist())"
  severity := "high"

/-- Rule `numpy_nan_inf` of `DEFAULT_PATTERN_RULES`. -/
def rule_numpy_nan_inf : NamedRule where
  name := "numpy_nan_inf"
  matchesLine := reSearch m2At
  description := "NumPy NaN/Inf not checked before JSON serialization"
  severity := "high"

/-- Rule `bounds_checking` of `DEFAULT_PATTERN_RULES`. -/
def rule_bounds_checking : NamedRule where
  name := "bounds_checking"
  matchesLine := reSearch m3At
  description := "List access without bounds checking"
  severity := "medium"

/-- Rule `specific_exceptions` of `DEFAULT_PATTERN_RULES`. -/
def rule_specific_exceptions : NamedRule where
  name := "specific_exceptions"
  matchesLine := reSearch m4At
  description := "Bare except clause (should catch specific exceptions)"
  severity := "medium"

/-- Rule `structured_logging` of `DEFAULT_PATTERN_RULES`. -/
def rule_structured_logging : NamedRule where
  name := "structured_logging"
  matchesLine := searchR5 none
  description := "Using print instead of logging"
  severity := "low"

/-- Rule `temp_file_handling` of `DEFAULT_PATTERN_RULES`. -/
def rule_temp_file_handling : NamedRule where
  name := "temp_file_handling"
  matchesLine := reSearch m6At
  description := "Using deprecated mktemp function (use mkstemp or NamedTemporaryFile)"
  severity := "high"

/-- Rule `large_file_loading` of `DEFAULT_PATTERN_RULES`. -/
def rule_large_file_loading : NamedRule where
  name := "large_file_loading"
  matchesLine := reSearch m7At
  description := "Loading entire file into memory (consider streaming for large files)"
  severity := "low"

/-- Rule `fastapi_streaming` of `DEFAULT_PATTERN_RULES`. -/
def rule_fastapi_streaming : NamedRule where
  name := "fastapi_streaming"
  matchesLine := reSearch m8At
  description := "FastAPI upload loaded entirely into memory (consider streaming)"
  severity := "medium"

/-- Rule `metadata_logic` of `DEFAULT_PATTERN_RULES`. -/
def rule_metadata_logic : NamedRule where
  name := "metadata_logic"
  matchesLine := reSearch m9At
  description := "String matching for business logic (consider metadata-based approach)"
  severity := "low"

/-- Embeds `DEFAULT_PATTERN_RULES`, in declaration (= dict iteration) order. -/
def DEFAULT_PATTERN_RULES : List NamedRule :=
  [rule_numpy_json_serialization, rule_numpy_nan_inf, rule_bounds_checking,
   rule_specific_exceptions, rule_structured_logging, rule_temp_file_handling,
   rule_large_file_loading, rule_fastapi_streaming, rule_metadata_logic]

/-- The violations one line contributes: one per rule whose regex matches,
in rule-declaration order (the inner `for pattern_name, pattern_info in
rules.items()` loop of `detect_pattern_violations`). -/
def lineViolations (rules : List NamedRule) (n : Nat) (line : Str) :
    List PatternViolation :=
  rules.filterMap fun r =>
    if r.matchesLine line then
      some { pattern := r.name, line := n, code := String.mk (pyStrip line),
             description := r.description, severity := r.severity,
             confidence := 0.8 }
    else none

/-- The outer `for line_num, line in enumerate(code.split("\n"), 1)` loop. -/
def detectFrom (rules : List NamedRule) (n : Nat) : List Str → List PatternViolation
  | [] => []
  | line :: rest => lineViolations rules n line ++ detectFrom rules (n + 1) rest

/-- Embeds `detect_pattern_violations(code, rules)` (the caller passes
`DEFAULT_PATTERN_RULES` when `rules` is `None`). -/
def detect_pattern_violations (code : Str) (rules : List NamedRule) :
    List PatternViolation :=
  detectFrom rules 1 (splitNl code)

/-- Embeds `severity_weights.get(severity, 0.0)`: first binding wins, default 0. -/
def weightLookup (weights : List (String × ℚ)) (sev : String) : ℚ :=
  match weights.find? fun p => p.1 == sev with
  | some p => p.2
  | none => 0

/-- The accumulation loop of `calculate_pattern_penalty`: `seen` is the set of
pattern names already counted, `total` the running sum. -/
def penaltyTotal (weights : List (String × ℚ)) (seen : List String) (total : ℚ) :
    List PatternViolation → ℚ
  | [] => total
  | v :: rest =>
    if v.pattern ∈ seen then penaltyTotal weights seen total rest
    else penaltyTotal weights (v.pattern :: seen)
      (total + weightLookup weights v.severity) rest

/-- Embeds `calculate_pattern_penalty(violations, severity_weights, max_penalty)`:
sum of severity weights over first occurrences of distinct pattern names,
then `min(total_penalty, max_penalty)`. -/
def calculate_pattern_penalty (violations : List PatternViolation)
    (severity_weights : List (String × ℚ)) (max_penalty : ℚ) : ℚ :=
  min (penaltyTotal severity_weights [] 0 violations) max_penalty

/-! ## Data model (`assessment/models.py`)

`models.py` is imported throughout the package but is not part of the source
tree; the passive records below are modelled from the spec's data-model
section (§3).  All deciding logic remains the embedded source code. -/

/-- Modelled from the spec: `PathType` enum `{technical, design,
collaboration, problem_solving}` of the missing `models.py`. -/
inductive PathType where
  | technical
  | design
  | collaboration
  | problem_solving
deriving DecidableEq

/-- Modelled from the spec: the string value of each `PathType` member, as
used by `path.value` in `engine.py`. -/
def PathType.value : PathType → String
  | .technical => "technical"
  | .design => "design"
  | .collaboration => "collaboration"
  | .problem_solving => "problem_solving"

/-- Python `path.value.title()` as used for the engine's fallback metric
name. -/
def PathType.valueTitle : PathType → String
  | .technical => "Technical"
  | .design => "Design"
  | .collaboration => "Collaboration"
  | .problem_solving => "Problem_Solving"

/-- Modelled from the spec: `MotiveType` enum of the missing `models.py`. -/
inductive MotiveType where
  | mastery
  | quality
  | innovation
  | collaboration
  | exploration
  | efficiency
deriving DecidableEq

/-- Modelled from the spec: the string value of each `MotiveType` member. -/
def MotiveType.value : MotiveType → String
  | .mastery => "mastery"
  | .quality => "quality"
  | .innovation => "innovation"
  | .collaboration => "collaboration"
  | .exploration => "exploration"
  | .efficiency => "efficiency"

/-- Modelled from the spec: `EvidenceType` enum of the missing `models.py`
(the members the sources use: `CODE_QUALITY`, `TESTING`, `ARCHITECTURE`,
`DOCUMENTATION`). -/
inductive EvidenceType where
  | code_quality
  | testing
  | architecture
  | documentation
deriving DecidableEq

/-- A primitive Python value inside a serialized dictionary
(`PatternViolation.to_dict` produces strings, ints and floats). -/
inductive PyVal where
  | s (v : String)
  | n (v : Nat)
  | q (v : ℚ)
deriving DecidableEq

/-- Embeds `PatternViolation.to_dict` from `pattern_checks.py`. -/
def PatternViolation.to_dict (v : PatternViolation) : List (String × PyVal) :=
  [("pattern", .s v.pattern), ("line", .n v.line), ("code", .s v.code),
   ("description", .s v.description), ("severity", .s v.severity),
   ("confidence", .q v.confidence)]

/-- Modelled from the spec: the `Evidence` record of the missing
`models.py`. -/
structure Evidence where
  type : EvidenceType
  description : String
  source : String
  weight : ℚ
  metadata : List (String × PyVal) := []
deriving DecidableEq

/-- Modelled from the spec: the `ScoringMetric` record of the missing
`models.py` (a plain record; §7 of the spec classifies out-of-range values as
internal bugs rather than construction-time errors, so no validation is
modelled). -/
structure ScoringMetric where
  name : String
  category : String
  score : ℚ
  weight : ℚ
  evidence : List Evidence
  explanation : String
  confidence : ℚ := 0.8
deriving DecidableEq

/-- Modelled from the spec: the `MicroMotive` record of the missing
`models.py`. -/
structure MicroMotive where
  motive_type : MotiveType
  strength : ℚ
  indicators : List String
  evidence : List Evidence
  path_alignment : PathType
deriving DecidableEq

/-- A value of the caller-supplied `content` mapping: a string, a sequence,
or any other object carried as its Python string rendering. -/
inductive ContentVal where
  | str (s : Str)
  | seq (elems : List ContentVal)
  | other (rendered : Str)

/-- The `content` mapping of an `AssessmentInput`, in insertion order. -/
abbrev ContentDict := List (String × ContentVal)

/-- Modelled from the spec: the `AssessmentInput` record of the missing
`models.py`. -/
structure AssessmentInput where
  candidate_id : String
  submission_type : String
  content : ContentDict
  paths_to_evaluate : List PathType

/-- Join rendered parts with `", "` (Python's sequence rendering). -/
def joinComma : List Str → Str
  | [] => []
  | [x] => x
  | x :: xs => x ++ ", ".data ++ joinComma xs

mutual

/-- Python `repr` of a content value (quotes around strings; nested sequences
rendered recursively; `other` values carry their own rendering). -/
def pyReprV : ContentVal → Str
  | .str s => '\'' :: (s ++ ['\''])
  | .seq l => '[' :: (joinCommaRepr l ++ [']'])
  | .other r => r

/-- Embeds `repr` of each element of a sequence, comma-joined. -/
def joinCommaRepr : List ContentVal → Str
  | [] => []
  | [v] => pyReprV v
  | v :: vs => pyReprV v ++ (", ".data ++ joinCommaRepr vs)

end

/-- Python `str` of a content value (`str` of a string is itself). -/
def pyToStr : ContentVal → Str
  | .str s => s
  | .seq l => '[' :: (joinCommaRepr l ++ [']'])
  | .other r => r

/-- Python `str(content)` for the whole mapping (dict rendering). -/
def pyReprDict (content : ContentDict) : Str :=
  "\x7b".data ++
    joinComma (content.map fun p => '\'' :: (p.1.data ++ "': ".data ++ pyReprV p.2)) ++
    "\x7d".data

/-- Embeds `key in content` / `content[key]`: first binding of the key. -/
def dictFind (d : ContentDict) (k : String) : Option ContentVal :=
  match d.find? fun p => p.1 == k with
  | some p => some p.2
  | none => none

/-- The priority key list of `_extract_text_content`. -/
def contentKeys : List String :=
  ["code", "text", "content", "solution", "submission"]

/-- Embeds `AssessmentEngine._extract_text_content` from `engine.py`; per the spec
(§4.3) the missing `helpers.extract_text_content` used by the scorers follows
the same rule, so this single embedding stands for both.  Every present
priority key contributes parts (strings directly, sequences element-wise via
`str`); the whole mapping is stringified only when no part was collected. -/
def extract_text_content (content : ContentDict) : Str :=
  let parts := contentKeys.foldl
    (fun acc k =>
      match dictFind content k with
      | some (.str s) => acc ++ [s]
      | some (.seq l) => acc ++ l.map pyToStr
      | some (.other _) => acc
      | none => acc)
    ([] : List Str)
  joinNl (if parts.isEmpty then [pyReprDict content] else parts)

/-! ## Embedding of `assessment/scorers/heuristic.py` -/

/-- Embeds `HeuristicScorerConfig` with its constructor defaults. -/
structure HeuristicScorerConfig where
  pattern_checks_enabled : Bool := true
  pattern_penalty_low : ℚ := 1.0
  pattern_penalty_medium : ℚ := 3.0
  pattern_penalty_high : ℚ := 5.0
  pattern_penalty_max : ℚ := 15.0

/-- The default configuration (`HeuristicScorerConfig()`). -/
def defaultHeuristicConfig : HeuristicScorerConfig := {}

namespace HeuristicScorer

/-- Embeds `self.pattern_penalty_weights` built in `HeuristicScorer.__init__`
("critical" maps to the high weight). -/
def pattern_penalty_weights (cfg : HeuristicScorerConfig) : List (String × ℚ) :=
  [("low", cfg.pattern_penalty_low), ("medium", cfg.pattern_penalty_medium),
   ("high", cfg.pattern_penalty_high), ("critical", cfg.pattern_penalty_high)]

/-- Embeds `any(w in text for w in words)`. -/
def anyIn (words : List Str) (text : Str) : Bool :=
  words.any fun w => subIn w text

/-- The `non_empty_lines` comprehension of
`HeuristicScorer._analyze_code_quality`: count of lines that are non-blank
after stripping and do not start with `#`. -/
def nonEmptyLineCount (text : Str) : Nat :=
  ((splitNl text).filter fun l =>
    let s := pyStrip l
    !s.isEmpty && !(match s with | c :: _ => c == '#' | [] => false)).length

/-- The pre-penalty `score` accumulator of
`HeuristicScorer._analyze_code_quality` (everything before the pattern
penalty is applied): keyword bonuses, the logic-density bonus, and the
`print`/todo deductions. -/
def code_quality_base (text : Str) : ℚ :=
  let text_lower := pyLower text
  let lines := splitNl text
  let logic_density : ℚ :=
    (nonEmptyLineCount text : ℚ) / (max lines.length 1 : ℚ)
  50.0
    + (if subIn "def ".data text || subIn "function ".data text ||
          subIn "class ".data text then 10 else 0)
    + (if subIn "import ".data text || subIn "from ".data text then 5 else 0)
    + (if logic_density > 0.7 then 8 else if logic_density > 0.5 then 5 else 0)
    + (if subIn "try:".data text || subIn "except".data text ||
          subIn "error".data text_lower then 10 else 0)
    + (if subIn "test".data text_lower || subIn "assert".data text_lower
        then 10 else 0)
    - (if countSub "print(".data text > 5 then 5 else 0)
    - (if subIn "todo".data text_lower || subIn "fixme".data text_lower
        then 3 else 0)

/-- Embeds `HeuristicScorer._analyze_code_quality`: the pre-penalty base, then the
pattern penalty (when violations were passed and checks are enabled),
clamped to `[0, 100]`. -/
def analyze_code_quality (cfg : HeuristicScorerConfig) (text : Str)
    (pattern_violations : List PatternViolation) : ℚ :=
  let score := code_quality_base text
  let score :=
    if !pattern_violations.isEmpty && cfg.pattern_checks_enabled then
      score - calculate_pattern_penalty pattern_violations
        (pattern_penalty_weights cfg) cfg.pattern_penalty_max
    else score
  min 100.0 (max 0.0 score)

/-- Embeds `HeuristicScorer._analyze_problem_solving`. -/
def analyze_problem_solving (text : Str) : ℚ :=
  let text_lower := pyLower text
  let score : ℚ := 50.0
    + (if anyIn ["algorithm".data, "complexity".data, "optimize".data,
          "efficient".data] text_lower then 15 else 0)
    + (if anyIn ["loop".data, "iterate".data, "recursion".data] text_lower
        then 10 else 0)
    + (if subIn "if ".data text || subIn "else".data text then 5 else 0)
  min 100.0 (max 0.0 score)

/-- Embeds `HeuristicScorer._analyze_testing`. -/
def analyze_testing (text : Str) : ℚ :=
  let text_lower := pyLower text
  let score : ℚ := 30.0
    + (if subIn "test".data text_lower then 20 else 0)
    + (if subIn "assert".data text_lower then 15 else 0)
    + (if subIn "mock".data text_lower || subIn "stub".data text_lower
        then 10 else 0)
  min 100.0 (max 0.0 score)

/-- Embeds `HeuristicScorer._analyze_architecture`. -/
def analyze_architecture (text : Str) : ℚ :=
  let text_lower := pyLower text
  let score : ℚ := 50.0
    + (if subIn "class ".data text || subIn "module".data text_lower
        then 15 else 0)
    + (if subIn "pattern".data text_lower || subIn "design".data text_lower
        then 10 else 0)
  min 100.0 (max 0.0 score)

/-- Embeds `HeuristicScorer._analyze_design_thinking`. -/
def analyze_design_thinking (text : Str) : ℚ :=
  let text_lower := pyLower text
  let score : ℚ := 50.0
    + (if anyIn ["consider".data, "think".data, "approach".data, "design".data]
          text_lower then 15 else 0)
    + (if subIn "alternative".data text_lower || subIn "option".data text_lower
        then 10 else 0)
  min 100.0 (max 0.0 score)

/-- Embeds `HeuristicScorer._analyze_documentation`. -/
def analyze_documentation (text : Str) : ℚ :=
  let comment_ratio : ℚ :=
    (countSub "#".data text : ℚ) + (countSub "//".data text : ℚ) +
      (countSub "/*".data text : ℚ)
  let score : ℚ := 40.0
    + (if comment_ratio > (text.length : ℚ) / 50 then 20 else 0)
    + (if subIn "\"\"\"".data text || subIn "'''".data text then 15 else 0)
  min 100.0 (max 0.0 score)

/-- The `meaningful_names` comprehension of
`HeuristicScorer._analyze_readability`: count of lines containing one of the
five "meaningful name" keywords. -/
def meaningfulNameLineCount (text : Str) : Nat :=
  ((splitNl text).filter fun line =>
    anyIn ["name".data, "value".data, "result".data, "data".data, "item".data]
      (pyLower line)).length

/-- Embeds `HeuristicScorer._analyze_readability`. -/
def analyze_readability (text : Str) : ℚ :=
  let lines := splitNl text
  let score : ℚ := 60.0
    + (if (meaningfulNameLineCount text : ℚ) > (lines.length : ℚ) / 10
        then 15 else 0)
  min 100.0 (max 0.0 score)

/-- Embeds `HeuristicScorer._analyze_analytical_thinking`. -/
def analyze_analytical_thinking (text : Str) : ℚ :=
  let text_lower := pyLower text
  let score : ℚ := 50.0
    + (if anyIn ["analyze".data, "analysis".data, "break".data, "down".data,
          "step".data] text_lower then 15 else 0)
    + (if subIn "logic".data text_lower || subIn "reasoning".data text_lower
        then 10 else 0)
  min 100.0 (max 0.0 score)

/-- Embeds `HeuristicScorer._explain_code_quality`. -/
def explain_code_quality (cfg : HeuristicScorerConfig) (score : ℚ)
    (violation_count : Nat) : String :=
  let pattern_note :=
    if violation_count > 0 && cfg.pattern_checks_enabled then
      " Pattern checks flagged " ++ toString violation_count ++
        " potential issue" ++ (if violation_count ≠ 1 then "s" else "") ++ "."
    else ""
  if score ≥ 80 then
    "Code demonstrates strong quality with good structure and practices" ++ pattern_note
  else if score ≥ 60 then
    "Code shows solid fundamentals with room for improvement" ++ pattern_note
  else
    "Code quality could be enhanced with better structure and practices" ++ pattern_note

/-- The per-severity evidence weights of
`HeuristicScorer._generate_code_quality_evidence` (default 0.6). -/
def violationEvidenceWeight (severity : String) : ℚ :=
  match ([("critical", (1.0 : ℚ)), ("high", 0.9), ("medium", 0.7),
      ("low", 0.5)].find? fun p => p.1 == severity) with
  | some p => p.2
  | none => 0.6

/-- Embeds `HeuristicScorer._generate_code_quality_evidence`. -/
def generate_code_quality_evidence (cfg : HeuristicScorerConfig) (text : Str)
    (pattern_violations : List PatternViolation) : List Evidence :=
  (if subIn "def ".data text || subIn "function ".data text then
    [{ type := .code_quality,
       description := "Code uses functions/methods for organization",
       source := "code_structure", weight := 0.7 }]
  else []) ++
  (if subIn "try:".data text || subIn "except".data text then
    [{ type := .code_quality, description := "Error handling present in code",
       source := "error_handling", weight := 0.8 }]
  else []) ++
  (if !pattern_violations.isEmpty && cfg.pattern_checks_enabled then
    (pattern_violations.take 10).map fun v =>
      { type := .code_quality,
        description := "Pattern violation: " ++ v.pattern ++ " - " ++ v.description,
        source := "pattern_checks", weight := violationEvidenceWeight v.severity,
        metadata := v.to_dict }
  else [])

/-- Embeds `HeuristicScorer._explain_problem_solving`. -/
def explain_problem_solving (score : ℚ) : String :=
  if score ≥ 75 then "Demonstrates strong problem-solving with clear approach"
  else if score ≥ 55 then "Shows good problem-solving fundamentals"
  else "Problem-solving approach could be more systematic"

/-- Embeds `HeuristicScorer._generate_problem_solving_evidence`. -/
def generate_problem_solving_evidence (text : Str) : List Evidence :=
  let text_lower := pyLower text
  if subIn "optimize".data text_lower || subIn "efficient".data text_lower then
    [{ type := .code_quality, description := "Shows awareness of optimization",
       source := "code_analysis", weight := 0.7 }]
  else []

/-- Embeds `HeuristicScorer._explain_testing`. -/
def explain_testing (score : ℚ) : String :=
  if score ≥ 70 then "Good testing awareness and practices"
  else if score ≥ 40 then "Some testing present but could be more comprehensive"
  else "Testing approach needs development"

/-- Embeds `HeuristicScorer._generate_testing_evidence`. -/
def generate_testing_evidence (text : Str) : List Evidence :=
  if subIn "test".data (pyLower text) then
    [{ type := .testing, description := "Testing mentioned or present",
       source := "code_analysis", weight := 0.6 }]
  else []

/-- Embeds `HeuristicScorer._explain_architecture`. -/
def explain_architecture (score : ℚ) : String :=
  if score ≥ 75 then "Well-structured architecture with clear organization"
  else if score ≥ 55 then "Good architectural awareness"
  else "Architecture could be more structured"

/-- Embeds `HeuristicScorer._generate_architecture_evidence`. -/
def generate_architecture_evidence (text : Str) : List Evidence :=
  if subIn "class ".data text then
    [{ type := .architecture, description := "Object-oriented structure present",
       source := "code_structure", weight := 0.7 }]
  else []

/-- Embeds `HeuristicScorer._explain_design_thinking`. -/
def explain_design_thinking (score : ℚ) : String :=
  if score ≥ 70 then "Demonstrates strong design thinking"
  else if score ≥ 50 then "Shows good design awareness"
  else "Design thinking could be more explicit"

/-- Embeds `HeuristicScorer._generate_design_thinking_evidence`. -/
def generate_design_thinking_evidence (text : Str) : List Evidence :=
  if subIn "consider".data (pyLower text) || subIn "think".data (pyLower text) then
    [{ type := .architecture, description := "Shows thoughtful design consideration",
       source := "content_analysis", weight := 0.6 }]
  else []

/-- Embeds `HeuristicScorer._explain_documentation`. -/
def explain_documentation (score : ℚ) : String :=
  if score ≥ 70 then "Good documentation practices demonstrated"
  else if score ≥ 50 then "Some documentation present"
  else "Documentation could be improved"

/-- Embeds `HeuristicScorer._generate_documentation_evidence`. -/
def generate_documentation_evidence (text : Str) : List Evidence :=
  if subIn "\"\"\"".data text || subIn "'''".data text then
    [{ type := .documentation, description := "Docstrings present in code",
       source := "code_analysis", weight := 0.7 }]
  else []

/-- Embeds `HeuristicScorer._explain_readability`. -/
def explain_readability (score : ℚ) : String :=
  if score ≥ 70 then "Code is readable and well-structured"
  else if score ≥ 55 then "Code readability is acceptable"
  else "Code readability could be improved"

/-- Embeds `HeuristicScorer._generate_readability_evidence` (unconditional; the
source ignores its `text` argument). -/
def generate_readability_evidence (_text : Str) : List Evidence :=
  [{ type := .code_quality, description := "Code structure analyzed for readability",
     source := "code_analysis", weight := 0.6 }]

/-- Embeds `HeuristicScorer._explain_analytical_thinking`. -/
def explain_analytical_thinking (score : ℚ) : String :=
  if score ≥ 70 then "Strong analytical thinking demonstrated"
  else if score ≥ 50 then "Good analytical approach"
  else "Analytical thinking could be more explicit"

/-- Embeds `HeuristicScorer._generate_analytical_evidence`. -/
def generate_analytical_evidence (text : Str) : List Evidence :=
  if subIn "analyze".data (pyLower text) || subIn "break".data (pyLower text) then
    [{ type := .code_quality, description := "Shows analytical approach",
       source := "content_analysis", weight := 0.6 }]
  else []

/-- Embeds `HeuristicScorer._analyze_technical`: Code Quality (weight 0.3),
Problem Solving (0.3) and Testing (0.2) metrics.  The optional Python
parameter `pattern_violations=None` is modelled as the empty list, which the
source treats identically (both are falsy and `len(x or [])` is 0). -/
def analyze_technical (cfg : HeuristicScorerConfig) (text : Str)
    (pattern_violations : List PatternViolation) : List ScoringMetric :=
  let code_score := analyze_code_quality cfg text pattern_violations
  let ps_score := analyze_problem_solving text
  let test_score := analyze_testing text
  [{ name := "Code Quality", category := "technical", score := code_score,
     weight := 0.3,
     evidence := generate_code_quality_evidence cfg text pattern_violations,
     explanation := explain_code_quality cfg code_score pattern_violations.length,
     confidence := 0.85 },
   { name := "Problem Solving", category := "technical", score := ps_score,
     weight := 0.3, evidence := generate_problem_solving_evidence text,
     explanation := explain_problem_solving ps_score, confidence := 0.8 },
   { name := "Testing", category := "technical", score := test_score,
     weight := 0.2, evidence := generate_testing_evidence text,
     explanation := explain_testing test_score, confidence := 0.75 }]

/-- Embeds `HeuristicScorer._analyze_design`: Architecture (0.4) and Design
Thinking (0.3). -/
def analyze_design (text : Str) : List ScoringMetric :=
  let arch_score := analyze_architecture text
  let dt_score := analyze_design_thinking text
  [{ name := "Architecture", category := "design", score := arch_score,
     weight := 0.4, evidence := generate_architecture_evidence text,
     explanation := explain_architecture arch_score, confidence := 0.8 },
   { name := "Design Thinking", category := "design", score := dt_score,
     weight := 0.3, evidence := generate_design_thinking_evidence text,
     explanation := explain_design_thinking dt_score, confidence := 0.75 }]

/-- Embeds `HeuristicScorer._analyze_collaboration`: Documentation (0.3) and Code
Readability (0.35). -/
def analyze_collaboration (text : Str) : List ScoringMetric :=
  let doc_score := analyze_documentation text
  let read_score := analyze_readability text
  [{ name := "Documentation", category := "collaboration", score := doc_score,
     weight := 0.3, evidence := generate_documentation_evidence text,
     explanation := explain_documentation doc_score, confidence := 0.8 },
   { name := "Code Readability", category := "collaboration", score := read_score,
     weight := 0.35, evidence := generate_readability_evidence text,
     explanation := explain_readability read_score, confidence := 0.85 }]

/-- Embeds `HeuristicScorer._analyze_problem_solving_path`: Analytical
Thinking (0.3). -/
def analyze_problem_solving_path (text : Str) : List ScoringMetric :=
  let anal_score := analyze_analytical_thinking text
  [{ name := "Analytical Thinking", category := "problem_solving",
     score := anal_score, weight := 0.3,
     evidence := generate_analytical_evidence text,
     explanation := explain_analytical_thinking anal_score, confidence := 0.8 }]

/-- Embeds `HeuristicScorer.generate_metrics_for_path`: extract the submission text,
then dispatch on the path. -/
def generate_metrics_for_path (cfg : HeuristicScorerConfig) (path : PathType)
    (input_data : AssessmentInput) (pattern_violations : List PatternViolation) :
    List ScoringMetric :=
  let submission_text := extract_text_content input_data.content
  match path with
  | .technical => analyze_technical cfg submission_text pattern_violations
  | .design => analyze_design submission_text
  | .collaboration => analyze_collaboration submission_text
  | .problem_solving => analyze_problem_solving_path submission_text

end HeuristicScorer

/-! ## Embedding of `assessment/scorers/council_adapter.py` -/

/-- A value of the insights dictionary produced by
`CouncilAdapter.get_insights` (text, number, `None`, or the responses
list). -/
inductive IVal where
  | num (q : ℚ)
  | text (s : Str)
  | pyNone
  | resList (rs : List (String × Str))

/-- The insights dictionary (`council_insights`), in insertion order. -/
abbrev InsightsDict := List (String × IVal)

/-- Embeds `council_insights.get(key)` (no default). -/
def iGet (d : InsightsDict) (k : String) : Option IVal :=
  match d.find? fun p => p.1 == k with
  | some p => some p.2
  | none => none

/-- Regex `[:\s]` — the separator class of the score regex. -/
def isSepCh (c : Char) : Bool :=
  c == ':' || isPyWs c

/-- Regex `(\d+)/100` after at least one digit has been consumed (value `acc`):
greedily extend the digit group, falling back to matching the literal
`/100` at the current position. -/
def numThen (acc : Nat) : Str → Option Nat
  | [] => none
  | c :: t =>
    if c.isDigit then
      match numThen (acc * 10 + (c.toNat - '0'.toNat)) t with
      | some r => some r
      | none => if "/100".data.isPrefixOf (c :: t) then some acc else none
    else
      if "/100".data.isPrefixOf (c :: t) then some acc else none

/-- Regex `(\d+)/100`: at least one digit, then the literal `/100`; returns the
captured group's numeric value. -/
def numStart : Str → Option Nat
  | [] => none
  | c :: t => if c.isDigit then numThen (c.toNat - '0'.toNat) t else none

/-- Regex `[:\s]+(\d+)/100`: one or more separator characters, then the number. -/
def sepThen : Str → Option Nat
  | [] => none
  | c :: t =>
    if isSepCh c then
      match numStart t with
      | some v => some v
      | none => sepThen t
    else none

/-- Positions loop of `re.search(r"score[:\s]+(\d+)/100", synthesis,
re.IGNORECASE)`: leftmost match wins; `score` is compared
case-insensitively. -/
def parseScoreAux : Str → Option Nat
  | [] => none
  | c :: t =>
    match
      (if "score".data.isPrefixOf (pyLower (c :: t)) then
        sepThen ((c :: t).drop 5)
      else none) with
    | some v => some v
    | none => parseScoreAux t

/-- The score extraction of `CouncilAdapter.get_insights`:
`re.search(r"score[:\s]+(\d+)/100", synthesis, re.IGNORECASE)`, first match
wins, `None` when the regex does not match. -/
def parse_score_estimation (synthesis : Str) : Option Nat :=
  parseScoreAux synthesis

/-- The insights dictionary `CouncilAdapter.get_insights` returns on a
successful consultation (the I/O call itself is outside the model): the
synthesis text, the responses, the parsed score estimate (or `None`), and
the fixed confidence 0.85. -/
def buildInsights (synthesis : Str) (responses : List (String × Str)) :
    InsightsDict :=
  [("synthesis", .text synthesis),
   ("responses", .resList responses),
   ("score", match parse_score_estimation synthesis with
     | some n => .num (n : ℚ)
     | none => .pyNone),
   ("confidence", .num 0.85)]

/-- The `ScoringMetric` built by `CouncilAdapter.enhance_metrics`: score from
the insights (`80.0` fallback when absent or `None`), weight 0.4, confidence
from the insights (default 0.8).  A non-text `synthesis` or non-numeric
`confidence` value never occurs in the repository (`get_insights` always
stores a string and 0.85); those branches fall back to the `get` defaults. -/
def councilMetric (d : InsightsDict) : ScoringMetric :=
  let synthesis : Str :=
    match iGet d "synthesis" with
    | some (.text s) => s
    | _ => "No synthesis provided.".data
  let score : Option ℚ :=
    match iGet d "score" with
    | some (.num q) => some q
    | _ => none
  { name := "AI Council Review"
    category := "ai_assessment"
    score := match score with | some q => q | none => 80.0
    weight := 0.4
    evidence := [{ type := .code_quality, description := "Council Consensus",
                   source := "council_ai", weight := 1.0,
                   metadata := [("synthesis", PyVal.s (String.mk synthesis))] }]
    explanation :=
      "The AI Council (various personas) reviewed the submission. Consensus: " ++
        String.mk (synthesis.take 200) ++ "..."
    confidence :=
      match iGet d "confidence" with
      | some (.num q) => q
      | _ => 0.8 }

/-- Embeds `CouncilAdapter.enhance_metrics(metrics, council_insights, path)`:
a falsy insights value (`None` or an empty dict) returns the metrics
unchanged; otherwise the council metric is appended.  The `path` argument is
unused by the source body and is kept for fidelity. -/
def enhance_metrics (metrics : List ScoringMetric)
    (council_insights : Option InsightsDict) (_path : PathType) :
    List ScoringMetric :=
  match council_insights with
  | none => metrics
  | some d => if d.isEmpty then metrics else metrics ++ [councilMetric d]

/-! ## Embedding of `assessment/scorers/motive.py` -/

namespace MicroMotiveScorer

/-- Embeds `MicroMotiveScorer.generate_motive_evidence`. -/
def generate_motive_evidence (text : Str) (motive_type : MotiveType) :
    List Evidence :=
  let text_lower := pyLower text
  match motive_type with
  | .mastery =>
    if subIn "algorithm".data text_lower || subIn "optimize".data text_lower then
      [{ type := .code_quality, description := "Technical depth indicators present",
         source := "content_analysis", weight := 0.6 }]
    else []
  | .quality =>
    if subIn "test".data text_lower || subIn "error".data text_lower then
      [{ type := .testing, description := "Quality-focused indicators present",
         source := "content_analysis", weight := 0.6 }]
    else []
  | _ => []

/-- Embeds `MicroMotiveScorer._analyze_technical_motives`. -/
def analyze_technical_motives (text_lower : Str) (original_text : Str)
    (path : PathType) : List MicroMotive :=
  let mc1 := HeuristicScorer.anyIn
    ["algorithm".data, "optimize".data, "efficient".data, "complexity".data]
    text_lower
  let mc2 := subIn "pattern".data text_lower || subIn "design".data text_lower
  let mastery_inds :=
    (if mc1 then ["Deep technical understanding"] else []) ++
      (if mc2 then ["Design pattern awareness"] else [])
  let mastery_str : ℚ := 0.5 + (if mc1 then 0.2 else 0) + (if mc2 then 0.15 else 0)
  let qc1 := subIn "test".data text_lower || subIn "error".data text_lower
  let qc2 := subIn "clean".data text_lower || subIn "readable".data text_lower
  let quality_inds :=
    (if qc1 then ["Quality-focused approach"] else []) ++
      (if qc2 then ["Code quality awareness"] else [])
  let quality_str : ℚ := 0.4 + (if qc1 then 0.2 else 0) + (if qc2 then 0.15 else 0)
  (if !mastery_inds.isEmpty then
    [{ motive_type := .mastery, strength := min 1.0 mastery_str,
       indicators := mastery_inds,
       evidence := generate_motive_evidence original_text .mastery,
       path_alignment := path }]
  else []) ++
  (if !quality_inds.isEmpty then
    [{ motive_type := .quality, strength := min 1.0 quality_str,
       indicators := quality_inds,
       evidence := generate_motive_evidence original_text .quality,
       path_alignment := path }]
  else []) ++
  (if subIn "optimize".data text_lower || subIn "performance".data text_lower then
    [{ motive_type := .efficiency, strength := 0.6,
       indicators := ["Performance optimization focus"],
       evidence := generate_motive_evidence original_text .efficiency,
       path_alignment := path }]
  else [])

/-- Embeds `MicroMotiveScorer._analyze_design_motives`. -/
def analyze_design_motives (text_lower : Str) (original_text : Str)
    (path : PathType) : List MicroMotive :=
  let c1 := subIn "alternative".data text_lower || subIn "approach".data text_lower
  let c2 := subIn "creative".data text_lower || subIn "novel".data text_lower
  let innov_inds :=
    (if c1 then ["Explores multiple approaches"] else []) ++
      (if c2 then ["Creative thinking"] else [])
  let innov_str : ℚ := 0.4 + (if c1 then 0.2 else 0) + (if c2 then 0.15 else 0)
  if !innov_inds.isEmpty then
    [{ motive_type := .innovation, strength := min 1.0 innov_str,
       indicators := innov_inds,
       evidence := generate_motive_evidence original_text .innovation,
       path_alignment := path }]
  else []

/-- Embeds `MicroMotiveScorer._analyze_collaboration_motives`. -/
def analyze_collaboration_motives (text_lower : Str) (original_text : Str)
    (path : PathType) : List MicroMotive :=
  let c1 := subIn "document".data text_lower || subIn "comment".data text_lower
  let c2 := subIn "team".data text_lower || subIn "collaborate".data text_lower
  let collab_inds :=
    (if c1 then ["Documentation focus"] else []) ++
      (if c2 then ["Team-oriented thinking"] else [])
  let collab_str : ℚ := 0.4 + (if c1 then 0.2 else 0) + (if c2 then 0.15 else 0)
  if !collab_inds.isEmpty then
    [{ motive_type := .collaboration, strength := min 1.0 collab_str,
       indicators := collab_inds,
       evidence := generate_motive_evidence original_text .collaboration,
       path_alignment := path }]
  else []

/-- Embeds `MicroMotiveScorer._analyze_problem_solving_motives`. -/
def analyze_problem_solving_motives (text_lower : Str) (original_text : Str)
    (path : PathType) : List MicroMotive :=
  let c1 := subIn "explore".data text_lower || subIn "investigate".data text_lower
  let c2 := subIn "analyze".data text_lower || subIn "break".data text_lower
  let expl_inds :=
    (if c1 then ["Exploratory approach"] else []) ++
      (if c2 then ["Analytical exploration"] else [])
  let expl_str : ℚ := 0.4 + (if c1 then 0.2 else 0) + (if c2 then 0.15 else 0)
  if !expl_inds.isEmpty then
    [{ motive_type := .exploration, strength := min 1.0 expl_str,
       indicators := expl_inds,
       evidence := generate_motive_evidence original_text .exploration,
       path_alignment := path }]
  else []

/-- Embeds `MicroMotiveScorer.identify_micro_motives`. -/
def identify_micro_motives (path : PathType) (input_data : AssessmentInput) :
    List MicroMotive :=
  let submission_text := extract_text_content input_data.content
  let text_lower := pyLower submission_text
  match path with
  | .technical => analyze_technical_motives text_lower submission_text path
  | .design => analyze_design_motives text_lower submission_text path
  | .collaboration => analyze_collaboration_motives text_lower submission_text path
  | .problem_solving => analyze_problem_solving_motives text_lower submission_text path

end MicroMotiveScorer

/-! ## Embedding of `assessment/engine.py` -/

/-- A metadata value of the result (`assessment_mode` is a string,
`ml_available` a boolean). -/
inductive MetaVal where
  | str (s : String)
  | bool (b : Bool)
deriving DecidableEq

/-- Modelled from the spec: the `PathScore` record of the missing
`models.py`. -/
structure PathScore where
  path : PathType
  overall_score : ℚ
  metrics : List ScoringMetric
  motives : List MicroMotive
  strengths : List String
  areas_for_improvement : List String

/-- Modelled from the spec: the `AssessmentResult` record of the missing
`models.py`. -/
structure AssessmentResult where
  candidate_id : String
  assessment_id : String
  overall_score : ℚ
  confidence : ℚ
  path_scores : List PathScore
  micro_motives : List MicroMotive
  dominant_path : Option PathType
  summary : String
  key_findings : List String
  recommendations : List String
  engine_version : String
  processing_time_ms : ℚ
  metadata : List (String × MetaVal)

/-- Round-half-even on an exact rational: the rounding CPython's fixed-point
`format` applies.  Only presentation strings depend on it; no verified claim
does. -/
def roundHalfEven (q : ℚ) : ℤ :=
  let fl := q.floor
  let frac := q - (fl : ℚ)
  if frac < 1 / 2 then fl
  else if 1 / 2 < frac then fl + 1
  else if fl % 2 = 0 then fl else fl + 1

/-- Python `f"{q:.d f}"` fixed-point formatting, on exact rationals. -/
def fmtFixed (d : Nat) (q : ℚ) : String :=
  let scaled := roundHalfEven (q * ((10 ^ d : ℕ) : ℚ))
  let a := scaled.natAbs
  let fpStr := toString (a % 10 ^ d)
  let fpPad := String.mk (List.replicate (d - fpStr.length) '0') ++ fpStr
  (if scaled < 0 then "-" else "") ++ toString (a / 10 ^ d) ++
    (if d = 0 then "" else "." ++ fpPad)

/-- Python `max(x :: xs, key)`: the first element attaining the maximum key
(later elements replace the current best only on a strictly greater key). -/
def pyMaxBy {α : Type} (key : α → ℚ) (best : α) : List α → α
  | [] => best
  | x :: xs => pyMaxBy key (if key best < key x then x else best) xs

namespace AssessmentEngine

/-- Embeds `AssessmentEngine._analyze_code_quality` (the engine's own variant: a
line-count bonus instead of the scorer's logic-density bonus, no `error`
keyword, and no pattern-penalty handling). -/
def analyze_code_quality (text : Str) : ℚ :=
  let text_lower := pyLower text
  let score : ℚ := 50.0
    + (if subIn "def ".data text || subIn "function ".data text ||
          subIn "class ".data text then 10 else 0)
    + (if subIn "import ".data text || subIn "from ".data text then 5 else 0)
    + (if subIn "try:".data text || subIn "except".data text then 10 else 0)
    + (if subIn "test".data text_lower || subIn "assert".data text_lower
        then 10 else 0)
    + (if (splitNl text).length > 10 then 5 else 0)
    - (if countSub "print(".data text > 5 then 5 else 0)
    - (if subIn "todo".data text_lower || subIn "fixme".data text_lower
        then 3 else 0)
  min 100.0 (max 0.0 score)

/-- Embeds `AssessmentEngine._generate_code_quality_evidence` (no pattern-violation
entries, unlike the scorer's variant). -/
def generate_code_quality_evidence (text : Str) : List Evidence :=
  (if subIn "def ".data text || subIn "function ".data text then
    [{ type := .code_quality,
       description := "Code uses functions/methods for organization",
       source := "code_structure", weight := 0.7 }]
  else []) ++
  (if subIn "try:".data text || subIn "except".data text then
    [{ type := .code_quality, description := "Error handling present in code",
       source := "error_handling", weight := 0.8 }]
  else [])

/-- Embeds `AssessmentEngine._explain_code_quality`. -/
def explain_code_quality (score : ℚ) : String :=
  if score ≥ 80 then
    "Code demonstrates strong quality with good structure and practices"
  else if score ≥ 60 then
    "Code shows solid fundamentals with room for improvement"
  else
    "Code quality could be enhanced with better structure and practices"

/-- The engine's fallback metric for a path whose battery produced no
metrics (dead for the four known paths, kept for fidelity). -/
def fallbackMetric (path : PathType) : ScoringMetric :=
  { name := path.valueTitle ++ " Assessment", category := path.value,
    score := 50.0, weight := 1.0, evidence := [],
    explanation := "Basic assessment for " ++ path.value ++ " path",
    confidence := 0.7 }

/-- Embeds `AssessmentEngine._generate_metrics_for_path`.  The remaining analyzer
methods of the engine (`_analyze_problem_solving`, `_analyze_testing`,
`_analyze_architecture`, `_analyze_design_thinking`, `_analyze_documentation`,
`_analyze_readability`, `_analyze_analytical_thinking` and their evidence and
explanation helpers) are textually identical to the `HeuristicScorer` ones
embedded above and are shared here. -/
def generate_metrics_for_path (path : PathType) (input_data : AssessmentInput) :
    List ScoringMetric :=
  let submission_text := extract_text_content input_data.content
  let metrics : List ScoringMetric :=
    match path with
    | .technical =>
      let code_quality_score := analyze_code_quality submission_text
      let problem_solving_score :=
        HeuristicScorer.analyze_problem_solving submission_text
      let testing_score := HeuristicScorer.analyze_testing submission_text
      [{ name := "Code Quality", category := "technical",
         score := code_quality_score, weight := 0.3,
         evidence := generate_code_quality_evidence submission_text,
         explanation := explain_code_quality code_quality_score,
         confidence := 0.85 },
       { name := "Problem Solving", category := "technical",
         score := problem_solving_score, weight := 0.3,
         evidence := HeuristicScorer.generate_problem_solving_evidence submission_text,
         explanation := HeuristicScorer.explain_problem_solving problem_solving_score,
         confidence := 0.8 },
       { name := "Testing", category := "technical", score := testing_score,
         weight := 0.2,
         evidence := HeuristicScorer.generate_testing_evidence submission_text,
         explanation := HeuristicScorer.explain_testing testing_score,
         confidence := 0.75 }]
    | .design =>
      let architecture_score := HeuristicScorer.analyze_architecture submission_text
      let design_thinking_score :=
        HeuristicScorer.analyze_design_thinking submission_text
      [{ name := "Architecture", category := "design",
         score := architecture_score, weight := 0.4,
         evidence := HeuristicScorer.generate_architecture_evidence submission_text,
         explanation := HeuristicScorer.explain_architecture architecture_score,
         confidence := 0.8 },
       { name := "Design Thinking", category := "design",
         score := design_thinking_score, weight := 0.3,
         evidence := HeuristicScorer.generate_design_thinking_evidence submission_text,
         explanation := HeuristicScorer.explain_design_thinking design_thinking_score,
         confidence := 0.75 }]
    | .collaboration =>
      let documentation_score := HeuristicScorer.analyze_documentation submission_text
      let readability_score := HeuristicScorer.analyze_readability submission_text
      [{ name := "Documentation", category := "collaboration",
         score := documentation_score, weight := 0.3,
         evidence := HeuristicScorer.generate_documentation_evidence submission_text,
         explanation := HeuristicScorer.explain_documentation documentation_score,
         confidence := 0.8 },
       { name := "Code Readability", category := "collaboration",
         score := readability_score, weight := 0.35,
         evidence := HeuristicScorer.generate_readability_evidence submission_text,
         explanation := HeuristicScorer.explain_readability readability_score,
         confidence := 0.85 }]
    | .problem_solving =>
      let analytical_score :=
        HeuristicScorer.analyze_analytical_thinking submission_text
      [{ name := "Analytical Thinking", category := "problem_solving",
         score := analytical_score, weight := 0.3,
         evidence := HeuristicScorer.generate_analytical_evidence submission_text,
         explanation := HeuristicScorer.explain_analytical_thinking analytical_score,
         confidence := 0.8 }]
  if metrics.isEmpty then [fallbackMetric path] else metrics

/-- Embeds `AssessmentEngine._identify_micro_motives` (the engine's own variant:
fixed strengths, no problem-solving branch; its `_generate_motive_evidence`
is textually identical to the `MicroMotiveScorer` one and is shared). -/
def identify_micro_motives (path : PathType) (input_data : AssessmentInput) :
    List MicroMotive :=
  let submission_text := extract_text_content input_data.content
  let text_lower := pyLower submission_text
  match path with
  | .technical =>
    (if HeuristicScorer.anyIn
        ["algorithm".data, "optimize".data, "efficient".data] text_lower then
      [{ motive_type := .mastery, strength := 0.7,
         indicators := ["Deep technical understanding"],
         evidence := MicroMotiveScorer.generate_motive_evidence
           submission_text .mastery,
         path_alignment := path }]
    else []) ++
    (if subIn "test".data text_lower || subIn "error".data text_lower then
      [{ motive_type := .quality, strength := 0.6,
         indicators := ["Quality-focused approach"],
         evidence := MicroMotiveScorer.generate_motive_evidence
           submission_text .quality,
         path_alignment := path }]
    else [])
  | .design =>
    if subIn "alternative".data text_lower || subIn "approach".data text_lower then
      [{ motive_type := .innovation, strength := 0.6,
         indicators := ["Explores multiple approaches"],
         evidence := MicroMotiveScorer.generate_motive_evidence
           submission_text .innovation,
         path_alignment := path }]
    else []
  | .collaboration =>
    if subIn "document".data text_lower || subIn "comment".data text_lower then
      [{ motive_type := .collaboration, strength := 0.6,
         indicators := ["Documentation focus"],
         evidence := MicroMotiveScorer.generate_motive_evidence
           submission_text .collaboration,
         path_alignment := path }]
    else []
  | .problem_solving => []

/-- Embeds `AssessmentEngine._calculate_path_score`: 0.0 for no metrics, the
unweighted mean when the total weight is 0, the weighted mean otherwise. -/
def calculate_path_score (metrics : List ScoringMetric) : ℚ :=
  if metrics.isEmpty then 0.0
  else
    let total_weight := (metrics.map (·.weight)).sum
    if total_weight = 0 then
      (metrics.map (·.score)).sum / (metrics.length : ℚ)
    else
      (metrics.map fun m => m.score * m.weight).sum / total_weight

/-- Embeds `AssessmentEngine._calculate_overall_score`: arithmetic mean of the path
scores, 0.0 when no paths were evaluated. -/
def calculate_overall_score (path_scores : List PathScore) : ℚ :=
  if path_scores.isEmpty then 0.0
  else (path_scores.map (·.overall_score)).sum / (path_scores.length : ℚ)

/-- Embeds `AssessmentEngine._determine_dominant_path`:
`max(path_scores, key=lambda ps: ps.overall_score).path`, `None` for an
empty list. -/
def determine_dominant_path (path_scores : List PathScore) : Option PathType :=
  match path_scores with
  | [] => none
  | p :: ps => some (pyMaxBy (·.overall_score) p ps).path

/-- Embeds `AssessmentEngine._identify_strengths`: metrics scoring ≥ 75. -/
def identify_strengths (metrics : List ScoringMetric) : List String :=
  metrics.filterMap fun m =>
    if m.score ≥ 75.0 then some (m.name ++ ": " ++ m.explanation) else none

/-- Embeds `AssessmentEngine._identify_improvements`: metrics scoring < 75. -/
def identify_improvements (metrics : List ScoringMetric) : List String :=
  metrics.filterMap fun m =>
    if m.score < 75.0 then
      some (m.name ++ ": Consider enhancing this area (current score: " ++
        fmtFixed 0 m.score ++ ")")
    else none

/-- Embeds `AssessmentEngine._generate_summary`. -/
def generate_summary (path_scores : List PathScore) (motives : List MicroMotive) :
    String :=
  let avg_score := calculate_overall_score path_scores
  let top_path := determine_dominant_path path_scores
  let summary :=
    "Assessment shows an overall score of " ++ fmtFixed 1 avg_score ++
      "/100. Strongest performance in " ++
      (match top_path with
       | some p => p.value
       | none => "multiple areas") ++ ". "
  match motives with
  | [] => summary
  | m :: ms =>
    let dominant_motive := pyMaxBy (·.strength) m ms
    summary ++ "Primary micro-motive is " ++ dominant_motive.motive_type.value ++
      " with strength " ++ fmtFixed 2 dominant_motive.strength ++ "."

/-- Embeds `AssessmentEngine._extract_key_findings`: one finding per path scoring
≥ 80 or < 60. -/
def extract_key_findings (path_scores : List PathScore) : List String :=
  path_scores.filterMap fun ps =>
    if ps.overall_score ≥ 80 then
      some ("Strong performance in " ++ ps.path.value ++ " (score: " ++
        fmtFixed 1 ps.overall_score ++ ")")
    else if ps.overall_score < 60 then
      some ("Opportunity for growth in " ++ ps.path.value ++ " (score: " ++
        fmtFixed 1 ps.overall_score ++ ")")
    else none

/-- Embeds `AssessmentEngine._generate_recommendations`: the first improvement of
each path that has one. -/
def generate_recommendations (path_scores : List PathScore) : List String :=
  path_scores.filterMap fun ps =>
    match ps.areas_for_improvement with
    | [] => none
    | a :: _ => some ("Focus on " ++ ps.path.value ++ ": " ++ a)

/-- Embeds `AssessmentEngine._evaluate_path`. -/
def evaluate_path (path : PathType) (input_data : AssessmentInput) : PathScore :=
  let metrics := generate_metrics_for_path path input_data
  { path := path
    overall_score := calculate_path_score metrics
    metrics := metrics
    motives := identify_micro_motives path input_data
    strengths := identify_strengths metrics
    areas_for_improvement := identify_improvements metrics }

/-- Embeds `AssessmentEngine.assess`.  The wall-clock readings (`time.time()`) are
parameters: `now_ms` feeds the assessment id, `elapsed_ms` the processing
time.  `self._use_ml` is `False` throughout the source (set in `__init__`,
never written again), so the metadata mode is always `"heuristic"`. -/
def assess (version : String) (assessment_input : AssessmentInput)
    (now_ms : Nat) (elapsed_ms : ℚ) : AssessmentResult :=
  let assessment_id := "assess_" ++ toString now_ms
  let path_scores :=
    assessment_input.paths_to_evaluate.map fun p => evaluate_path p assessment_input
  let all_motives := (path_scores.map (·.motives)).flatten
  let all_confidences := path_scores.filterMap fun ps =>
    if ps.metrics.isEmpty then none
    else some ((ps.metrics.map (·.confidence)).sum / (ps.metrics.length : ℚ))
  let overall_score := calculate_overall_score path_scores
  let overall_confidence :=
    if all_confidences.isEmpty then 0.85
    else all_confidences.sum / (all_confidences.length : ℚ)
  { candidate_id := assessment_input.candidate_id
    assessment_id := assessment_id
    overall_score := overall_score
    confidence := overall_confidence
    path_scores := path_scores
    micro_motives := all_motives
    dominant_path := determine_dominant_path path_scores
    summary := generate_summary path_scores all_motives
    key_findings := extract_key_findings path_scores
    recommendations := generate_recommendations path_scores
    engine_version := version
    processing_time_ms := elapsed_ms
    metadata := [("assessment_mode", MetaVal.str "heuristic"),
                 ("ml_available", MetaVal.bool false)] }

end AssessmentEngine

/-! ## Concrete fixtures used by the claim theorems -/

/-- The submission text of the spec's concrete scenario 1. -/
def helloWorldText : Str := "def hello():\n    return 'world'".data

/-- A technical `PathScore` at 70.0 with no metrics (tie-break fixture). -/
def psTech70 : PathScore :=
  { path := .technical, overall_score := 70, metrics := [], motives := [],
    strengths := [], areas_for_improvement := [] }

/-- A design `PathScore` at 70.0 with no metrics (tie-break fixture). -/
def psDesign70 : PathScore :=
  { path := .design, overall_score := 70, metrics := [], motives := [],
    strengths := [], areas_for_improvement := [] }

/-- Code whose only default-rule match is a bare `except:` on line 3 (the
spec's concrete scenario 2). -/
def bareExceptCode : Str := "def f():\n    try:\n    except:\n        pass".data

/-- A code-type `AssessmentInput` over `bareExceptCode`. -/
def bareExceptInput : AssessmentInput :=
  { candidate_id := "cand", submission_type := "code",
    content := [("code", .str bareExceptCode)],
    paths_to_evaluate := [.technical] }

/-! ## Shared lemmas -/

/-- Both scorers clamp every score with `min(100.0, max(0.0, score))`. -/
theorem clamp_mem (x : ℚ) : 0 ≤ min 100 (max 0 x) ∧ min 100 (max 0 x) ≤ 100 :=
  ⟨le_min (by norm_num) (le_max_left 0 x), min_le_left 100 _⟩

/-- A severity lookup in a table of nonnegative weights is nonnegative (the
default for an absent severity is 0). -/
theorem weightLookup_nonneg (weights : List (String × ℚ))
    (h : ∀ p ∈ weights, 0 ≤ p.2) (sev : String) : 0 ≤ weightLookup weights sev := by
  unfold weightLookup
  cases hf : weights.find? fun p => p.1 == sev with
  | none => simp
  | some p => exact h p (List.mem_of_find?_eq_some hf)

/-- The penalty accumulator stays nonnegative over nonnegative weights. -/
theorem penaltyTotal_nonneg (weights : List (String × ℚ))
    (h : ∀ p ∈ weights, 0 ≤ p.2) :
    ∀ (vs : List PatternViolation) (seen : List String) (total : ℚ),
      0 ≤ total → 0 ≤ penaltyTotal weights seen total vs := by
  intro vs
  induction vs with
  | nil => intro seen total ht; simpa [penaltyTotal] using ht
  | cons v rest ih =>
    intro seen total ht
    by_cases hv : v.pattern ∈ seen
    · simpa [penaltyTotal, hv] using ih seen total ht
    · simpa [penaltyTotal, hv] using
        ih (v.pattern :: seen) (total + weightLookup weights v.severity)
          (add_nonneg ht (weightLookup_nonneg weights h v.severity))

/-- Appending a violation whose pattern name is already seen, or occurs in
the list, never changes the accumulated total. -/
theorem penaltyTotal_append_of_mem (weights : List (String × ℚ))
    (v : PatternViolation) :
    ∀ (vs : List PatternViolation) (seen : List String) (total : ℚ),
      (v.pattern ∈ seen ∨ v.pattern ∈ vs.map (·.pattern)) →
      penaltyTotal weights seen total (vs ++ [v]) =
        penaltyTotal weights seen total vs := by
  intro vs
  induction vs with
  | nil =>
    intro seen total h
    have hv : v.pattern ∈ seen := by simpa using h
    simp [penaltyTotal, hv]
  | cons w rest ih =>
    intro seen total h
    by_cases hw : w.pattern ∈ seen
    · simp only [List.cons_append, penaltyTotal, if_pos hw]
      refine ih seen total ?_
      rcases h with h | h
      · exact Or.inl h
      · rcases (by simpa using h : v.pattern = w.pattern ∨
          v.pattern ∈ rest.map (·.pattern)) with h | h
        · exact Or.inl (h ▸ hw)
        · exact Or.inr h
    · simp only [List.cons_append, penaltyTotal, if_neg hw]
      refine ih (w.pattern :: seen) (total + weightLookup weights w.severity) ?_
      rcases h with h | h
      · exact Or.inl (List.mem_cons_of_mem _ h)
      · rcases (by simpa using h : v.pattern = w.pattern ∨
          v.pattern ∈ rest.map (·.pattern)) with h | h
        · exact Or.inl (h ▸ List.mem_cons_self _ _)
        · exact Or.inr h

/-! ## Claim C3 -/

/-- Claim C3, corrected: with a nonnegative `max_penalty` **and a table whose
weights are all nonnegative** (which the claim's universal quantification
over weight tables omits), `calculate_pattern_penalty` lies in
`[0, max_penalty]`; severities absent from the table contribute 0 (the
lookup's total default), and the empty violation list yields 0. -/
theorem C3_penalty_bounded (violations : List PatternViolation)
    (weights : List (String × ℚ)) (maxP : ℚ) (hmax : 0 ≤ maxP)
    (hw : ∀ p ∈ weights, 0 ≤ p.2) :
    (0 ≤ calculate_pattern_penalty violations weights maxP ∧
      calculate_pattern_penalty violations weights maxP ≤ maxP) ∧
    calculate_pattern_penalty [] weights maxP = 0 := by
  refine ⟨⟨le_min ?_ hmax |>.trans (le_refl _), min_le_right _ _⟩, ?_⟩
  · exact penaltyTotal_nonneg weights hw violations [] 0 (le_refl 0)
  · simp [calculate_pattern_penalty, penaltyTotal, min_eq_left hmax]

/-- Witness for C3 at a concrete input. -/
theorem C3_penalty_bounded_witness :
    (0 ≤ calculate_pattern_penalty [] [("medium", 3)] 15 ∧
      calculate_pattern_penalty [] [("medium", 3)] 15 ≤ 15) ∧
    calculate_pattern_penalty [] [("medium", 3)] 15 = 0 :=
  C3_penalty_bounded [] [("medium", 3)] 15 (by norm_num)
    (by
      intro p hp
      have : p = ("medium", (3 : ℚ)) := by simpa using hp
      simp [this])

/-- Counterexample to C3 as stated: a weight table carrying a negative
weight drives the result below 0 (the source only caps from above with
`min(total, max_penalty)`), so the result is not in `[0, max_penalty]` for
*every* severity-weight table. -/
theorem C3_negative_weight_cex :
    calculate_pattern_penalty
      [{ pattern := "p", line := 1, code := "", description := "",
         severity := "medium" }]
      [("medium", -1)] 15 < 0 := by
  norm_num [calculate_pattern_penalty, penaltyTotal, weightLookup, List.find?,
    min_def, show (("medium" : String) == "medium") = true from by rfl]

/-! ## Claim C4 -/

/-- Claim C4, confirmed: `calculate_pattern_penalty` counts each distinct
pattern name at most once, using its first occurrence — an immediate
duplicate contributes nothing (`penalty([v, v]) = penalty([v])`), and
appending any violation whose pattern name already occurs in the list leaves
the result unchanged, for every weight table and maximum. -/
theorem C4_penalty_dedup :
    (∀ (v : PatternViolation) (weights : List (String × ℚ)) (maxP : ℚ),
      calculate_pattern_penalty [v, v] weights maxP =
        calculate_pattern_penalty [v] weights maxP) ∧
    (∀ (vs : List PatternViolation) (v : PatternViolation)
        (weights : List (String × ℚ)) (maxP : ℚ),
      v.pattern ∈ vs.map (·.pattern) →
      calculate_pattern_penalty (vs ++ [v]) weights maxP =
        calculate_pattern_penalty vs weights maxP) := by
  have key : ∀ (vs : List PatternViolation) (v : PatternViolation)
      (weights : List (String × ℚ)) (maxP : ℚ),
      v.pattern ∈ vs.map (·.pattern) →
      calculate_pattern_penalty (vs ++ [v]) weights maxP =
        calculate_pattern_penalty vs weights maxP := by
    intro vs v weights maxP h
    unfold calculate_pattern_penalty
    rw [penaltyTotal_append_of_mem weights v vs [] 0 (Or.inr h)]
  refine ⟨fun v weights maxP => ?_, key⟩
  simpa using key [v] v weights maxP (by simp)

/-- Witness for C4 at a concrete input. -/
theorem C4_penalty_dedup_witness :
    calculate_pattern_penalty
      [{ pattern := "p", line := 1, code := "", description := "",
         severity := "medium" },
       { pattern := "p", line := 4, code := "", description := "",
         severity := "high" }]
      [("medium", 3), ("high", 5)] 15 =
    calculate_pattern_penalty
      [{ pattern := "p", line := 1, code := "", description := "",
         severity := "medium" }]
      [("medium", 3), ("high", 5)] 15 :=
  C4_penalty_dedup.2
    [{ pattern := "p", line := 1, code := "", description := "",
       severity := "medium" }]
    { pattern := "p", line := 4, code := "", description := "",
      severity := "high" }
    [("medium", 3), ("high", 5)] 15 (by simp)

/-! ## Claim C5 -/

/-- Claim C5, corrected: on `"def hello():\n    return 'world'"` with pattern
checks enabled and no violations, `HeuristicScorer._analyze_code_quality`
(the only code-quality heuristic with pattern-check handling) yields **68.0**,
not 60.0: base 50, +10 for the function keyword, and +8 from the
logic-density bonus the claim overlooks (both lines are non-blank, so the
density is 1.0 > 0.7).  The engine's internal variant — which has no
pattern-check handling and a `>10`-lines bonus instead of logic density —
yields the claimed 60.0. -/
theorem C5_code_quality_scores :
    HeuristicScorer.analyze_code_quality defaultHeuristicConfig helloWorldText [] = 68 ∧
    AssessmentEngine.analyze_code_quality helloWorldText = 60 := by
  constructor
  · norm_num [HeuristicScorer.analyze_code_quality,
      HeuristicScorer.code_quality_base, defaultHeuristicConfig,
      show subIn "def ".data helloWorldText = true from by decide,
      show subIn "function ".data helloWorldText = false from by decide,
      show subIn "class ".data helloWorldText = false from by decide,
      show subIn "import ".data helloWorldText = false from by decide,
      show subIn "from ".data helloWorldText = false from by decide,
      show HeuristicScorer.nonEmptyLineCount helloWorldText = 2 from by decide,
      show (splitNl helloWorldText).length = 2 from by decide,
      show subIn "try:".data helloWorldText = false from by decide,
      show subIn "except".data helloWorldText = false from by decide,
      show subIn "error".data (pyLower helloWorldText) = false from by decide,
      show subIn "test".data (pyLower helloWorldText) = false from by decide,
      show subIn "assert".data (pyLower helloWorldText) = false from by decide,
      show countSub "print(".data helloWorldText = 0 from by decide,
      show subIn "todo".data (pyLower helloWorldText) = false from by decide,
      show subIn "fixme".data (pyLower helloWorldText) = false from by decide]
  · norm_num [AssessmentEngine.analyze_code_quality,
      show subIn "def ".data helloWorldText = true from by decide,
      show subIn "function ".data helloWorldText = false from by decide,
      show subIn "class ".data helloWorldText = false from by decide,
      show subIn "import ".data helloWorldText = false from by decide,
      show subIn "from ".data helloWorldText = false from by decide,
      show subIn "try:".data helloWorldText = false from by decide,
      show subIn "except".data helloWorldText = false from by decide,
      show subIn "test".data (pyLower helloWorldText) = false from by decide,
      show subIn "assert".data (pyLower helloWorldText) = false from by decide,
      show (splitNl helloWorldText).length = 2 from by decide,
      show countSub "print(".data helloWorldText = 0 from by decide,
      show subIn "todo".data (pyLower helloWorldText) = false from by decide,
      show subIn "fixme".data (pyLower helloWorldText) = false from by decide]

/-- Counterexample to C5 as stated: the scorer's Code Quality heuristic on
the scenario text (pattern checks enabled, no violations) does **not** equal
60.0. -/
theorem C5_sixty_cex :
    HeuristicScorer.analyze_code_quality defaultHeuristicConfig
      helloWorldText [] ≠ 60 := by
  norm_num [HeuristicScorer.analyze_code_quality,
      HeuristicScorer.code_quality_base, defaultHeuristicConfig,
    show subIn "def ".data helloWorldText = true from by decide,
    show subIn "function ".data helloWorldText = false from by decide,
    show subIn "class ".data helloWorldText = false from by decide,
    show subIn "import ".data helloWorldText = false from by decide,
    show subIn "from ".data helloWorldText = false from by decide,
    show HeuristicScorer.nonEmptyLineCount helloWorldText = 2 from by decide,
    show (splitNl helloWorldText).length = 2 from by decide,
    show subIn "try:".data helloWorldText = false from by decide,
    show subIn "except".data helloWorldText = false from by decide,
    show subIn "error".data (pyLower helloWorldText) = false from by decide,
    show subIn "test".data (pyLower helloWorldText) = false from by decide,
    show subIn "assert".data (pyLower helloWorldText) = false from by decide,
    show countSub "print(".data helloWorldText = 0 from by decide,
    show subIn "todo".data (pyLower helloWorldText) = false from by decide,
    show subIn "fixme".data (pyLower helloWorldText) = false from by decide]

/-! ## Claim C7 -/

/-- Claim C7, confirmed: the path score is `Σ(score·weight)/Σ(weight)`; a
zero total weight falls back to the unweighted mean; an empty metric list
yields 0.0; and the concrete two-metric scenario (80 and 60 at weights
0.5/0.5) evaluates to exactly 70.0. -/
theorem C7_path_score_formula :
    (AssessmentEngine.calculate_path_score [] = 0) ∧
    (∀ metrics : List ScoringMetric, metrics ≠ [] →
      (metrics.map (·.weight)).sum = 0 →
      AssessmentEngine.calculate_path_score metrics =
        (metrics.map (·.score)).sum / (metrics.length : ℚ)) ∧
    (∀ metrics : List ScoringMetric,
      (metrics.map (·.weight)).sum ≠ 0 →
      AssessmentEngine.calculate_path_score metrics =
        (metrics.map fun m => m.score * m.weight).sum /
          (metrics.map (·.weight)).sum) ∧
    (AssessmentEngine.calculate_path_score
      [{ name := "Test1", category := "test", score := 80, weight := 0.5,
         evidence := [], explanation := "Test" },
       { name := "Test2", category := "test", score := 60, weight := 0.5,
         evidence := [], explanation := "Test" }] = 70) := by
  refine ⟨by norm_num [AssessmentEngine.calculate_path_score], ?_, ?_, ?_⟩
  · intro metrics hne hw
    simp [AssessmentEngine.calculate_path_score, hne, hw]
  · intro metrics hw
    have hne : metrics ≠ [] := by
      rintro rfl
      exact hw (by simp)
    simp [AssessmentEngine.calculate_path_score, hne, hw]
  · norm_num [AssessmentEngine.calculate_path_score]

/-- Witness for C7 at a concrete input (single metric of weight 0: the
unweighted-mean fallback applies). -/
theorem C7_path_score_witness :
    AssessmentEngine.calculate_path_score
      [{ name := "M", category := "c", score := 45, weight := 0,
         evidence := [], explanation := "e" }] = 45 := by
  have h := C7_path_score_formula.2.1
    [{ name := "M", category := "c", score := 45, weight := 0,
       evidence := [], explanation := "e" }]
    (by simp) (by simp)
  simpa using h

/-! ## Claim C8 -/

/-- Python `max` with a key returns the first element attaining the maximum:
the list splits as `l1 ++ max :: l2` with every element of `l1` strictly
below the maximum and every element at most the maximum. -/
theorem pyMaxBy_first_max {α : Type} (key : α → ℚ) :
    ∀ (xs : List α) (b : α),
      ∃ l1 l2, b :: xs = l1 ++ pyMaxBy key b xs :: l2 ∧
        (∀ y ∈ l1, key y < key (pyMaxBy key b xs)) ∧
        (∀ y ∈ b :: xs, key y ≤ key (pyMaxBy key b xs)) := by
  intro xs
  induction xs with
  | nil =>
    intro b
    exact ⟨[], [], rfl, by simp, by simp [pyMaxBy]⟩
  | cons x xs ih =>
    intro b
    by_cases h : key b < key x
    · have hunfold : pyMaxBy key b (x :: xs) = pyMaxBy key x xs := by
        simp [pyMaxBy, h]
      obtain ⟨l1, l2, heq, hlt, hle⟩ := ih x
      have hxr : key x ≤ key (pyMaxBy key x xs) := hle x (List.mem_cons_self _ _)
      refine ⟨b :: l1, l2, ?_, ?_, ?_⟩
      · rw [hunfold, List.cons_append, ← heq]
      · intro y hy
        rw [hunfold]
        rcases List.mem_cons.mp hy with rfl | hy
        · exact lt_of_lt_of_le h hxr
        · exact hlt y hy
      · intro y hy
        rw [hunfold]
        rcases List.mem_cons.mp hy with rfl | hy
        · exact le_of_lt (lt_of_lt_of_le h hxr)
        · exact hle y hy
    · have hxb : key x ≤ key b := le_of_not_lt h
      have hunfold : pyMaxBy key b (x :: xs) = pyMaxBy key b xs := by
        simp [pyMaxBy, h]
      obtain ⟨l1, l2, heq, hlt, hle⟩ := ih b
      have hbr : key b ≤ key (pyMaxBy key b xs) := hle b (List.mem_cons_self _ _)
      cases l1 with
      | nil =>
        have hr : pyMaxBy key b xs = b := by
          have := (List.cons.injEq _ _ _ _).mp (by simpa using heq)
          exact this.1.symm
        refine ⟨[], x :: xs, by simp [hunfold, hr], by simp, ?_⟩
        intro y hy
        rw [hunfold]
        rcases List.mem_cons.mp hy with rfl | hy
        · exact hbr
        · rcases List.mem_cons.mp hy with rfl | hy
          · exact le_trans hxb hbr
          · exact hle y (List.mem_cons_of_mem _ hy)
      | cons a l1t =>
        have hinj := (List.cons.injEq _ _ _ _).mp (by simpa using heq)
        have hb_eq : b = a := hinj.1
        have hxs_eq : xs = l1t ++ pyMaxBy key b xs :: l2 := hinj.2
        have hb_lt : key b < key (pyMaxBy key b xs) := by
          have h1 := hlt a (List.mem_cons_self a l1t)
          rwa [← hb_eq] at h1
        refine ⟨b :: x :: l1t, l2, ?_, ?_, ?_⟩
        · rw [hunfold, List.cons_append, List.cons_append]
          exact congrArg (fun t => b :: x :: t) hxs_eq
        · intro y hy
          rw [hunfold]
          rcases List.mem_cons.mp hy with rfl | hy
          · exact hb_lt
          · rcases List.mem_cons.mp hy with rfl | hy
            · exact lt_of_le_of_lt hxb hb_lt
            · exact hlt y (List.mem_cons_of_mem _ hy)
        · intro y hy
          rw [hunfold]
          rcases List.mem_cons.mp hy with rfl | hy
          · exact hbr
          · rcases List.mem_cons.mp hy with rfl | hy
            · exact le_trans hxb hbr
            · exact hle y (List.mem_cons_of_mem _ hy)

/-- Claim C8, confirmed: `dominant_path` is `none` exactly for an empty path
list, and otherwise is the path of the **first** score attaining the maximal
`overall_score` (Python `max` keeps the incumbent on ties): the evaluated
list splits as `l1 ++ r :: l2` with `dominant = r.path`, everything in `l1`
strictly below `r`, and every score at most `r`'s. -/
theorem C8_dominant_path :
    (AssessmentEngine.determine_dominant_path [] = none) ∧
    (∀ pss : List PathScore,
      AssessmentEngine.determine_dominant_path pss = none → pss = []) ∧
    (∀ (p : PathScore) (ps : List PathScore),
      ∃ (l1 l2 : List PathScore) (r : PathScore),
        p :: ps = l1 ++ r :: l2 ∧
        AssessmentEngine.determine_dominant_path (p :: ps) = some r.path ∧
        (∀ y ∈ l1, y.overall_score < r.overall_score) ∧
        (∀ y ∈ p :: ps, y.overall_score ≤ r.overall_score)) := by
  refine ⟨rfl, ?_, ?_⟩
  · intro pss hnone
    cases pss with
    | nil => rfl
    | cons p ps => simp [AssessmentEngine.determine_dominant_path] at hnone
  · intro p ps
    obtain ⟨l1, l2, heq, hlt, hle⟩ := pyMaxBy_first_max (·.overall_score) ps p
    exact ⟨l1, l2, pyMaxBy (·.overall_score) p ps, heq, rfl, hlt, hle⟩

/-- Witness for C8 at concrete inputs: the empty case, and a two-way tie
resolved in favour of the first path. -/
theorem C8_dominant_path_witness :
    ([] : List PathScore) = [] ∧
    (∃ (l1 l2 : List PathScore) (r : PathScore),
      ([psTech70, psDesign70] : List PathScore) = l1 ++ r :: l2 ∧
      AssessmentEngine.determine_dominant_path [psTech70, psDesign70] =
        some r.path ∧
      (∀ y ∈ l1, y.overall_score < r.overall_score) ∧
      (∀ y ∈ ([psTech70, psDesign70] : List PathScore),
        y.overall_score ≤ r.overall_score)) :=
  ⟨C8_dominant_path.2.1 [] rfl, C8_dominant_path.2.2 psTech70 [psDesign70]⟩

/-! ## Claim C6 -/

/-- Claim C6, corrected: `_extract_text_content` concatenates the values of
**every** present priority key, in the fixed key order `code, text, content,
solution, submission` (not just the first present key): both of two present
keys contribute, in priority order regardless of mapping order; sequence
values are joined element-wise; non-string non-sequence values contribute
nothing; and the whole mapping is stringified only when no part was
collected. -/
theorem C6_extract_all_keys :
    (∀ a b : Str,
      extract_text_content [("code", .str a), ("text", .str b)] = a ++ '\n' :: b) ∧
    (∀ a b : Str,
      extract_text_content [("text", .str b), ("code", .str a)] = a ++ '\n' :: b) ∧
    (∀ a b : Str,
      extract_text_content [("solution", .seq [.str a, .str b])] = a ++ '\n' :: b) ∧
    (∀ a r : Str,
      extract_text_content [("code", .other r), ("text", .str a)] = a) ∧
    (∀ content : ContentDict,
      (∀ k ∈ contentKeys, dictFind content k = none) →
      extract_text_content content = pyReprDict content) := by
  refine ⟨fun a b => rfl, fun a b => rfl, fun a b => rfl, fun a r => rfl, ?_⟩
  intro content h
  have h1 := h "code" (by simp [contentKeys])
  have h2 := h "text" (by simp [contentKeys])
  have h3 := h "content" (by simp [contentKeys])
  have h4 := h "solution" (by simp [contentKeys])
  have h5 := h "submission" (by simp [contentKeys])
  simp [extract_text_content, contentKeys, h1, h2, h3, h4, h5, joinNl]

/-- Witness for C6 at a concrete input with none of the priority keys. -/
theorem C6_extract_all_keys_witness :
    extract_text_content [("foo", .str "x".data)] =
      pyReprDict [("foo", .str "x".data)] :=
  C6_extract_all_keys.2.2.2.2 [("foo", .str "x".data)]
    (by
      intro k hk
      simp only [contentKeys, List.mem_cons, List.not_mem_nil, or_false] at hk
      rcases hk with rfl | rfl | rfl | rfl | rfl <;> rfl)

/-- Counterexample to C6 as stated: with both `code` and `text` present, the
lower-priority `text` value also contributes — the result is `"A\nB"`, not
the highest-priority key's `"A"` alone. -/
theorem C6_first_key_only_cex :
    extract_text_content [("code", .str "A".data), ("text", .str "B".data)] =
      "A\nB".data ∧
    extract_text_content [("code", .str "A".data), ("text", .str "B".data)] ≠
      "A".data := by
  exact ⟨rfl, by decide⟩

/-! ## Claim C10 -/

/-- Claim C10, confirmed: `enhance_metrics` with falsy insights (`None` or an
empty mapping) returns the metric list unchanged, and with non-empty insights
returns exactly the input metrics — unchanged and in order — with one
appended metric named "AI Council Review". -/
theorem C10_enhance_metrics_frame :
    (∀ (metrics : List ScoringMetric) (path : PathType),
      enhance_metrics metrics none path = metrics) ∧
    (∀ (metrics : List ScoringMetric) (path : PathType),
      enhance_metrics metrics (some []) path = metrics) ∧
    (∀ (metrics : List ScoringMetric) (d : InsightsDict) (path : PathType),
      d ≠ [] →
      enhance_metrics metrics (some d) path = metrics ++ [councilMetric d] ∧
      (councilMetric d).name = "AI Council Review") := by
  refine ⟨fun metrics path => rfl, fun metrics path => rfl, ?_⟩
  intro metrics d path hd
  cases d with
  | nil => exact absurd rfl hd
  | cons p t => exact ⟨rfl, rfl⟩

/-- Witness for C10 at a concrete input. -/
theorem C10_enhance_metrics_frame_witness :
    enhance_metrics [] (some [("synthesis", IVal.text "fine work".data)])
        PathType.technical =
      [councilMetric [("synthesis", IVal.text "fine work".data)]] ∧
    (councilMetric [("synthesis", IVal.text "fine work".data)]).name =
      "AI Council Review" :=
  C10_enhance_metrics_frame.2.2 [] [("synthesis", IVal.text "fine work".data)]
    PathType.technical (by simp)

/-! ## Claim C9 -/

/-- Every violation a line contributes carries that line's number. -/
theorem lineViolations_line (rules : List NamedRule) (n : Nat) (line : Str) :
    ∀ v ∈ lineViolations rules n line, v.line = n := by
  intro v hv
  obtain ⟨r, _, hr⟩ := List.mem_filterMap.mp hv
  by_cases hm : r.matchesLine line
  · simp only [lineViolations, hm, if_pos] at hr
    cases hr
    rfl
  · simp [hm] at hr

/-- Every violation a line contributes carries the name of one of the
rules. -/
theorem lineViolations_pattern (rules : List NamedRule) (n : Nat) (line : Str) :
    ∀ v ∈ lineViolations rules n line, v.pattern ∈ rules.map (·.name) := by
  intro v hv
  obtain ⟨r, hrmem, hr⟩ := List.mem_filterMap.mp hv
  by_cases hm : r.matchesLine line
  · simp only [lineViolations, hm, if_pos] at hr
    cases hr
    exact List.mem_map_of_mem _ hrmem
  · simp [hm] at hr

/-- Every violation `detectFrom rules n` emits has line number at least
`n`. -/
theorem detectFrom_line_ge (rules : List NamedRule) :
    ∀ (lines : List Str) (n : Nat) (v : PatternViolation),
      v ∈ detectFrom rules n lines → n ≤ v.line := by
  intro lines
  induction lines with
  | nil => intro n v hv; simp [detectFrom] at hv
  | cons l rest ih =>
    intro n v hv
    rcases List.mem_append.mp hv with hv | hv
    · exact (lineViolations_line rules n l v hv).ge
    · exact Nat.le_of_succ_le (ih (n + 1) v hv)

/-- The scan order: emitted violations are sorted by line number. -/
theorem detectFrom_sorted (rules : List NamedRule) :
    ∀ (lines : List Str) (n : Nat),
      (detectFrom rules n lines).Pairwise fun a b => a.line ≤ b.line := by
  intro lines
  induction lines with
  | nil => intro n; simp [detectFrom]
  | cons l rest ih =>
    intro n
    refine List.pairwise_append.mpr ⟨?_, ih (n + 1), ?_⟩
    · refine List.pairwise_of_forall_mem_list ?_
      intro a ha b hb
      rw [lineViolations_line rules n l a ha, lineViolations_line rules n l b hb]
    · intro a ha b hb
      have ha' := lineViolations_line rules n l a ha
      have hb' := detectFrom_line_ge rules rest (n + 1) b hb
      omega

/-- Per-line count: each rule contributes exactly one violation to a line
when its regex matches and none otherwise (rule names assumed distinct, as
in any Python dict-backed table). -/
theorem lineViolations_count (n : Nat) (line : Str) :
    ∀ (rules : List NamedRule) (rule : NamedRule), rule ∈ rules →
      (rules.map (·.name)).Nodup →
      List.countP (fun v => v.pattern == rule.name)
        (lineViolations rules n line) =
      if rule.matchesLine line then 1 else 0 := by
  intro rules
  induction rules with
  | nil => intro rule h _; simp at h
  | cons r rs ih =>
    intro rule hmem hnodup
    simp only [List.map_cons, List.nodup_cons] at hnodup
    obtain ⟨hr_not, hnodup'⟩ := hnodup
    rcases List.mem_cons.mp hmem with rfl | hmem'
    · have hzero : List.countP (fun v => v.pattern == rule.name)
          (lineViolations rs n line) = 0 := by
        refine List.countP_eq_zero.mpr ?_
        intro v hv
        have hp := lineViolations_pattern rs n line v hv
        simp only [beq_iff_eq]
        intro hcontra
        exact hr_not (hcontra ▸ hp)
      by_cases hm : rule.matchesLine line
      · have h1 : List.countP (fun v => v.pattern == rule.name)
            (lineViolations (rule :: rs) n line) =
            List.countP (fun v => v.pattern == rule.name)
              (lineViolations rs n line) + 1 := by
          simp [lineViolations, List.filterMap_cons, hm, List.countP_cons]
        rw [h1, hzero]
        simp [hm]
      · have h1 : List.countP (fun v => v.pattern == rule.name)
            (lineViolations (rule :: rs) n line) =
            List.countP (fun v => v.pattern == rule.name)
              (lineViolations rs n line) := by
          simp [lineViolations, List.filterMap_cons, hm]
        rw [h1, hzero]
        simp [hm]
    · have hne : (r.name == rule.name) = false := by
        simp only [beq_eq_false_iff_ne, ne_eq]
        intro hcontra
        exact hr_not (hcontra ▸ List.mem_map_of_mem _ hmem')
      by_cases hm : r.matchesLine line
      · have h1 : List.countP (fun v => v.pattern == rule.name)
            (lineViolations (r :: rs) n line) =
            List.countP (fun v => v.pattern == rule.name)
              (lineViolations rs n line) := by
          simp [lineViolations, List.filterMap_cons, hm, List.countP_cons, hne]
        rw [h1]
        exact ih rule hmem' hnodup'
      · have h1 : List.countP (fun v => v.pattern == rule.name)
            (lineViolations (r :: rs) n line) =
            List.countP (fun v => v.pattern == rule.name)
              (lineViolations rs n line) := by
          simp [lineViolations, List.filterMap_cons, hm]
        rw [h1]
        exact ih rule hmem' hnodup'

/-- Whole-scan count: exactly one violation per (line, rule) pair whose
regex matches, none otherwise. -/
theorem detectFrom_count (rules : List NamedRule) (rule : NamedRule)
    (hmem : rule ∈ rules) (hnodup : (rules.map (·.name)).Nodup) :
    ∀ (lines : List Str) (n₀ k : Nat) (line : Str), lines[k]? = some line →
      List.countP (fun v => v.line == n₀ + k && v.pattern == rule.name)
        (detectFrom rules n₀ lines) =
      if rule.matchesLine line then 1 else 0 := by
  intro lines
  induction lines with
  | nil => intro n₀ k line h; simp at h
  | cons l rest ih =>
    intro n₀ k line h
    rw [show detectFrom rules n₀ (l :: rest) =
        lineViolations rules n₀ l ++ detectFrom rules (n₀ + 1) rest from rfl,
      List.countP_append]
    cases k with
    | zero =>
      have hl : l = line := by simpa using h
      subst hl
      have hchunk : List.countP
          (fun v => v.line == n₀ + 0 && v.pattern == rule.name)
          (lineViolations rules n₀ l) =
          List.countP (fun v => v.pattern == rule.name)
            (lineViolations rules n₀ l) := by
        refine List.countP_congr ?_
        intro v hv
        have := lineViolations_line rules n₀ l v hv
        simp [this]
      have hrest : List.countP
          (fun v => v.line == n₀ + 0 && v.pattern == rule.name)
          (detectFrom rules (n₀ + 1) rest) = 0 := by
        refine List.countP_eq_zero.mpr ?_
        intro v hv
        have := detectFrom_line_ge rules rest (n₀ + 1) v hv
        simp only [Bool.and_eq_true, beq_iff_eq, not_and]
        intro hcontra
        omega
      rw [hchunk, hrest, Nat.add_zero]
      exact lineViolations_count n₀ l rules rule hmem hnodup
    | succ j =>
      have hchunk : List.countP
          (fun v => v.line == n₀ + (j + 1) && v.pattern == rule.name)
          (lineViolations rules n₀ l) = 0 := by
        refine List.countP_eq_zero.mpr ?_
        intro v hv
        have := lineViolations_line rules n₀ l v hv
        simp only [Bool.and_eq_true, beq_iff_eq, not_and]
        intro hcontra
        omega
      have hrest := ih (n₀ + 1) j line (by simpa using h)
      rw [hchunk, Nat.zero_add]
      rw [show n₀ + (j + 1) = n₀ + 1 + j from by omega]
      exact hrest

/-- Per-line rule order: the pattern names a single line emits form a
sublist of the rule table's names, i.e. appear in declaration order. -/
theorem lineViolations_sublist (rules : List NamedRule) (n : Nat) (line : Str) :
    List.Sublist ((lineViolations rules n line).map (·.pattern))
      (rules.map (·.name)) := by
  induction rules with
  | nil => simp [lineViolations]
  | cons r rs ih =>
    by_cases hm : r.matchesLine line
    · have h1 : lineViolations (r :: rs) n line =
          ({ pattern := r.name, line := n, code := String.mk (pyStrip line),
             description := r.description, severity := r.severity,
             confidence := 0.8 } : PatternViolation) ::
            lineViolations rs n line := by
        simp [lineViolations, List.filterMap_cons, hm]
      rw [h1, List.map_cons, List.map_cons]
      exact List.Sublist.cons₂ _ ih
    · have h1 : lineViolations (r :: rs) n line = lineViolations rs n line := by
        simp [lineViolations, List.filterMap_cons, hm]
      rw [h1, List.map_cons]
      exact List.Sublist.cons _ ih

/-- Whole-scan rule order: restricted to any one line number, the emitted
pattern names are a sublist of the rule table's names. -/
theorem detectFrom_filter_line_sublist (rules : List NamedRule) :
    ∀ (lines : List Str) (n₀ n : Nat),
      List.Sublist
        (((detectFrom rules n₀ lines).filter fun v => v.line == n).map
          (·.pattern))
        (rules.map (·.name)) := by
  intro lines
  induction lines with
  | nil => intro n₀ n; simp [detectFrom]
  | cons l rest ih =>
    intro n₀ n
    rw [show detectFrom rules n₀ (l :: rest) =
        lineViolations rules n₀ l ++ detectFrom rules (n₀ + 1) rest from rfl,
      List.filter_append, List.map_append]
    by_cases hn : n₀ = n
    · have hrest : (detectFrom rules (n₀ + 1) rest).filter
          (fun v => v.line == n) = [] := by
        refine List.filter_eq_nil_iff.mpr ?_
        intro v hv
        have := detectFrom_line_ge rules rest (n₀ + 1) v hv
        simp only [beq_iff_eq]
        omega
      have hchunk : (lineViolations rules n₀ l).filter
          (fun v => v.line == n) = lineViolations rules n₀ l := by
        refine List.filter_eq_self.mpr ?_
        intro v hv
        have := lineViolations_line rules n₀ l v hv
        simp [this, hn]
      rw [hrest, hchunk]
      simpa using lineViolations_sublist rules n₀ l
    · have hchunk : (lineViolations rules n₀ l).filter
          (fun v => v.line == n) = [] := by
        refine List.filter_eq_nil_iff.mpr ?_
        intro v hv
        have := lineViolations_line rules n₀ l v hv
        simp only [beq_iff_eq]
        omega
      rw [hchunk]
      simpa using ih (n₀ + 1) n

/-- Claim C9, confirmed: `detect_pattern_violations` emits exactly one
violation per (line, rule) regex match — formalised as a count of 1 when the
rule matches the line and 0 otherwise, for distinct rule names — in
line-ascending order (the output is sorted by line) with rule-declaration
order within a line (the pattern names at any line form a sublist of the
table's names); and on code whose only match is a bare `except:` on line 3 it
returns exactly one violation with pattern `specific_exceptions`, line 3 and
severity `medium`. -/
theorem C9_detect_violations :
    (detect_pattern_violations bareExceptCode DEFAULT_PATTERN_RULES =
      [{ pattern := "specific_exceptions", line := 3, code := "except:",
         description := "Bare except clause (should catch specific exceptions)",
         severity := "medium", confidence := 0.8 }]) ∧
    (∀ (code : Str) (rules : List NamedRule),
      (detect_pattern_violations code rules).Pairwise fun a b =>
        a.line ≤ b.line) ∧
    (∀ (code : Str) (rules : List NamedRule) (rule : NamedRule),
      rule ∈ rules → (rules.map (·.name)).Nodup →
      ∀ (k : Nat) (line : Str), (splitNl code)[k]? = some line →
      List.countP (fun v => v.line == 1 + k && v.pattern == rule.name)
        (detect_pattern_violations code rules) =
      if rule.matchesLine line then 1 else 0) ∧
    (∀ (code : Str) (rules : List NamedRule) (n : Nat),
      List.Sublist
        (((detect_pattern_violations code rules).filter fun v =>
          v.line == n).map (·.pattern))
        (rules.map (·.name))) := by
  refine ⟨rfl, ?_, ?_, ?_⟩
  · intro code rules
    exact detectFrom_sorted rules (splitNl code) 1
  · intro code rules rule hmem hnodup k line h
    exact detectFrom_count rules rule hmem hnodup (splitNl code) 1 k line h
  · intro code rules n
    exact detectFrom_filter_line_sublist rules (splitNl code) 1 n

/-- Witness for C9 at the concrete scenario: the bare `except:` sits on line
3 of `bareExceptCode`, and the table's `specific_exceptions` rule fires there
exactly once. -/
theorem C9_detect_violations_witness :
    List.countP
      (fun v => v.line == 1 + 2 && v.pattern == rule_specific_exceptions.name)
      (detect_pattern_violations bareExceptCode DEFAULT_PATTERN_RULES) = 1 := by
  have h := C9_detect_violations.2.2.1 bareExceptCode DEFAULT_PATTERN_RULES
    rule_specific_exceptions
    (by simp [DEFAULT_PATTERN_RULES])
    (by decide)
    2 "    except:".data (by rfl)
  simpa [show rule_specific_exceptions.matchesLine "    except:".data = true
    from by decide] using h

/-! ## Claim C1 -/

/-- The `min(100.0, max(0.0, score))` clamp in the literal decimal form the
embedded analyzers use. -/
theorem clamp_mem_deci (x : ℚ) :
    0 ≤ min 100.0 (max 0.0 x) ∧ min 100.0 (max 0.0 x) ≤ 100 := by
  have h100 : (100.0 : ℚ) = 100 := by norm_num
  have h0 : (0.0 : ℚ) = 0 := by norm_num
  rw [h100, h0]
  exact clamp_mem x

/-- The analyzer `HeuristicScorer._analyze_code_quality` is clamped to `[0, 100]` for
every text, violation list and configuration (negative penalty weights
included). -/
theorem analyze_code_quality_range (cfg : HeuristicScorerConfig) (text : Str)
    (viols : List PatternViolation) :
    0 ≤ HeuristicScorer.analyze_code_quality cfg text viols ∧
      HeuristicScorer.analyze_code_quality cfg text viols ≤ 100 := by
  unfold HeuristicScorer.analyze_code_quality
  exact clamp_mem_deci _

/-- The analyzer `HeuristicScorer._analyze_problem_solving` is clamped to `[0, 100]`. -/
theorem analyze_problem_solving_range (text : Str) :
    0 ≤ HeuristicScorer.analyze_problem_solving text ∧
      HeuristicScorer.analyze_problem_solving text ≤ 100 := by
  unfold HeuristicScorer.analyze_problem_solving
  exact clamp_mem_deci _

/-- The analyzer `HeuristicScorer._analyze_testing` is clamped to `[0, 100]`. -/
theorem analyze_testing_range (text : Str) :
    0 ≤ HeuristicScorer.analyze_testing text ∧
      HeuristicScorer.analyze_testing text ≤ 100 := by
  unfold HeuristicScorer.analyze_testing
  exact clamp_mem_deci _

/-- The analyzer `HeuristicScorer._analyze_architecture` is clamped to `[0, 100]`. -/
theorem analyze_architecture_range (text : Str) :
    0 ≤ HeuristicScorer.analyze_architecture text ∧
      HeuristicScorer.analyze_architecture text ≤ 100 := by
  unfold HeuristicScorer.analyze_architecture
  exact clamp_mem_deci _

/-- The analyzer `HeuristicScorer._analyze_design_thinking` is clamped to `[0, 100]`. -/
theorem analyze_design_thinking_range (text : Str) :
    0 ≤ HeuristicScorer.analyze_design_thinking text ∧
      HeuristicScorer.analyze_design_thinking text ≤ 100 := by
  unfold HeuristicScorer.analyze_design_thinking
  exact clamp_mem_deci _

/-- The analyzer `HeuristicScorer._analyze_documentation` is clamped to `[0, 100]`. -/
theorem analyze_documentation_range (text : Str) :
    0 ≤ HeuristicScorer.analyze_documentation text ∧
      HeuristicScorer.analyze_documentation text ≤ 100 := by
  unfold HeuristicScorer.analyze_documentation
  exact clamp_mem_deci _

/-- The analyzer `HeuristicScorer._analyze_readability` is clamped to `[0, 100]`. -/
theorem analyze_readability_range (text : Str) :
    0 ≤ HeuristicScorer.analyze_readability text ∧
      HeuristicScorer.analyze_readability text ≤ 100 := by
  unfold HeuristicScorer.analyze_readability
  exact clamp_mem_deci _

/-- The analyzer `HeuristicScorer._analyze_analytical_thinking` is clamped to
`[0, 100]`. -/
theorem analyze_analytical_thinking_range (text : Str) :
    0 ≤ HeuristicScorer.analyze_analytical_thinking text ∧
      HeuristicScorer.analyze_analytical_thinking text ≤ 100 := by
  unfold HeuristicScorer.analyze_analytical_thinking
  exact clamp_mem_deci _

/-- Every metric the heuristic scorer produces has a score in `[0, 100]` and
a confidence in `[0, 1]`. -/
theorem heuristic_metrics_range (cfg : HeuristicScorerConfig) (path : PathType)
    (input : AssessmentInput) (viols : List PatternViolation) :
    ∀ m ∈ HeuristicScorer.generate_metrics_for_path cfg path input viols,
      (0 ≤ m.score ∧ m.score ≤ 100) ∧ (0 ≤ m.confidence ∧ m.confidence ≤ 1) := by
  intro m hm
  cases path with
  | technical =>
    simp only [HeuristicScorer.generate_metrics_for_path,
      HeuristicScorer.analyze_technical, List.mem_cons, List.not_mem_nil,
      or_false] at hm
    rcases hm with rfl | rfl | rfl
    · exact ⟨analyze_code_quality_range cfg _ viols, by norm_num⟩
    · exact ⟨analyze_problem_solving_range _, by norm_num⟩
    · exact ⟨analyze_testing_range _, by norm_num⟩
  | design =>
    simp only [HeuristicScorer.generate_metrics_for_path,
      HeuristicScorer.analyze_design, List.mem_cons, List.not_mem_nil,
      or_false] at hm
    rcases hm with rfl | rfl
    · exact ⟨analyze_architecture_range _, by norm_num⟩
    · exact ⟨analyze_design_thinking_range _, by norm_num⟩
  | collaboration =>
    simp only [HeuristicScorer.generate_metrics_for_path,
      HeuristicScorer.analyze_collaboration, List.mem_cons, List.not_mem_nil,
      or_false] at hm
    rcases hm with rfl | rfl
    · exact ⟨analyze_documentation_range _, by norm_num⟩
    · exact ⟨analyze_readability_range _, by norm_num⟩
  | problem_solving =>
    simp only [HeuristicScorer.generate_metrics_for_path,
      HeuristicScorer.analyze_problem_solving_path, List.mem_cons,
      List.not_mem_nil, or_false] at hm
    rcases hm with rfl
    exact ⟨analyze_analytical_thinking_range _, by norm_num⟩

/-- Membership in a conditional singleton forces equality. -/
theorem mem_ite_singleton {α : Type} {mv x : α} {p : Prop} [Decidable p]
    (h : mv ∈ (if p then [x] else [])) : mv = x := by
  by_cases hp : p
  · simpa [hp] using h
  · simp [hp] at h

/-- A capped additive strength `min(1.0, base + bonus₁ + bonus₂)` lies in
`[0, 1]` when the summands are nonnegative. -/
theorem strength_min_one (base b1 b2 : ℚ) (hbase : 0 ≤ base) (h1 : 0 ≤ b1)
    (h2 : 0 ≤ b2) :
    0 ≤ min 1.0 (base + b1 + b2) ∧ min 1.0 (base + b1 + b2) ≤ 1 := by
  have hone : (1.0 : ℚ) = 1 := by norm_num
  rw [hone]
  exact ⟨le_min (by norm_num) (add_nonneg (add_nonneg hbase h1) h2),
    min_le_left _ _⟩

/-- Every micro-motive the motive scorer emits has strength in `[0, 1]`. -/
theorem motive_strength_range (path : PathType) (input : AssessmentInput) :
    ∀ mv ∈ MicroMotiveScorer.identify_micro_motives path input,
      0 ≤ mv.strength ∧ mv.strength ≤ 1 := by
  intro mv hmv
  cases path with
  | technical =>
    simp only [MicroMotiveScorer.identify_micro_motives,
      MicroMotiveScorer.analyze_technical_motives, List.mem_append] at hmv
    rcases hmv with (hmv | hmv) | hmv
    · rw [mem_ite_singleton hmv]
      exact strength_min_one _ _ _ (by norm_num)
        (by split_ifs <;> norm_num) (by split_ifs <;> norm_num)
    · rw [mem_ite_singleton hmv]
      exact strength_min_one _ _ _ (by norm_num)
        (by split_ifs <;> norm_num) (by split_ifs <;> norm_num)
    · rw [mem_ite_singleton hmv]
      norm_num
  | design =>
    simp only [MicroMotiveScorer.identify_micro_motives,
      MicroMotiveScorer.analyze_design_motives] at hmv
    rw [mem_ite_singleton hmv]
    exact strength_min_one _ _ _ (by norm_num)
      (by split_ifs <;> norm_num) (by split_ifs <;> norm_num)
  | collaboration =>
    simp only [MicroMotiveScorer.identify_micro_motives,
      MicroMotiveScorer.analyze_collaboration_motives] at hmv
    rw [mem_ite_singleton hmv]
    exact strength_min_one _ _ _ (by norm_num)
      (by split_ifs <;> norm_num) (by split_ifs <;> norm_num)
  | problem_solving =>
    simp only [MicroMotiveScorer.identify_micro_motives,
      MicroMotiveScorer.analyze_problem_solving_motives] at hmv
    rw [mem_ite_singleton hmv]
    exact strength_min_one _ _ _ (by norm_num)
      (by split_ifs <;> norm_num) (by split_ifs <;> norm_num)

/-- The weighted path score stays in `[0, 100]` whenever every metric score
is in `[0, 100]` and every weight is nonnegative. -/
theorem path_score_range (metrics : List ScoringMetric)
    (h : ∀ m ∈ metrics, (0 ≤ m.score ∧ m.score ≤ 100) ∧ 0 ≤ m.weight) :
    0 ≤ AssessmentEngine.calculate_path_score metrics ∧
      AssessmentEngine.calculate_path_score metrics ≤ 100 := by
  unfold AssessmentEngine.calculate_path_score
  cases metrics with
  | nil => norm_num
  | cons m0 ms =>
    have hlen : 0 < (((m0 :: ms).length : ℕ) : ℚ) := by
      exact_mod_cast Nat.succ_pos ms.length
    have hscore_nonneg : ∀ x ∈ (m0 :: ms).map (·.score), 0 ≤ x := by
      intro x hx
      obtain ⟨m, hm, rfl⟩ := List.mem_map.mp hx
      exact (h m hm).1.1
    have hscore_le : ∀ x ∈ (m0 :: ms).map (·.score), x ≤ 100 := by
      intro x hx
      obtain ⟨m, hm, rfl⟩ := List.mem_map.mp hx
      exact (h m hm).1.2
    have hw_nonneg : ∀ x ∈ (m0 :: ms).map (·.weight), 0 ≤ x := by
      intro x hx
      obtain ⟨m, hm, rfl⟩ := List.mem_map.mp hx
      exact (h m hm).2
    have hsum_nonneg : 0 ≤ ((m0 :: ms).map (·.score)).sum :=
      List.sum_nonneg hscore_nonneg
    have hsum_le : ((m0 :: ms).map (·.score)).sum ≤
        (((m0 :: ms).length : ℕ) : ℚ) * 100 := by
      have hcard := List.sum_le_card_nsmul ((m0 :: ms).map (·.score)) 100 hscore_le
      simpa [List.length_map, nsmul_eq_mul] using hcard
    have hwsum_nonneg : 0 ≤ ((m0 :: ms).map (·.weight)).sum :=
      List.sum_nonneg hw_nonneg
    simp only [List.isEmpty_cons, Bool.false_eq_true, if_false]
    by_cases hw : ((m0 :: ms).map (·.weight)).sum = 0
    · rw [if_pos hw]
      constructor
      · exact div_nonneg hsum_nonneg (le_of_lt hlen)
      · rw [div_le_iff₀ hlen]
        linarith
    · rw [if_neg hw]
      have hwpos : 0 < ((m0 :: ms).map (·.weight)).sum :=
        lt_of_le_of_ne hwsum_nonneg (Ne.symm hw)
      have hprod_nonneg : 0 ≤ ((m0 :: ms).map fun m => m.score * m.weight).sum := by
        apply List.sum_nonneg
        intro x hx
        obtain ⟨m, hm, rfl⟩ := List.mem_map.mp hx
        exact mul_nonneg (h m hm).1.1 (h m hm).2
      constructor
      · exact div_nonneg hprod_nonneg hwsum_nonneg
      · rw [div_le_iff₀ hwpos]
        have hle : ((m0 :: ms).map fun m => m.score * m.weight).sum ≤
            ((m0 :: ms).map fun m => 100 * m.weight).sum := by
          apply List.sum_le_sum
          intro i hi
          exact mul_le_mul_of_nonneg_right (h i hi).1.2 (h i hi).2
        have heq : ((m0 :: ms).map fun m => 100 * m.weight).sum =
            100 * ((m0 :: ms).map (·.weight)).sum := by
          induction (m0 :: ms) with
          | nil => simp
          | cons a l ihl => simp [ihl]; ring
        linarith

/-- The score of the "AI Council Review" metric built from a `get_insights`
dictionary: the regex-extracted `N` verbatim (no clamping), or the 80.0
fallback when no `score: N/100` pattern matched. -/
theorem councilMetric_score (synthesis : Str) (responses : List (String × Str)) :
    (parse_score_estimation synthesis = none →
      (councilMetric (buildInsights synthesis responses)).score = 80) ∧
    (∀ n : Nat, parse_score_estimation synthesis = some n →
      (councilMetric (buildInsights synthesis responses)).score = (n : ℚ)) := by
  constructor
  · intro hp
    simp [councilMetric, buildInsights, iGet, List.find?, hp,
      show (("synthesis" : String) == "score") = false from by rfl,
      show (("responses" : String) == "score") = false from by rfl,
      show (("score" : String) == "score") = true from by rfl]
    norm_num
  · intro n hp
    simp [councilMetric, buildInsights, iGet, List.find?, hp,
      show (("synthesis" : String) == "score") = false from by rfl,
      show (("responses" : String) == "score") = false from by rfl,
      show (("score" : String) == "score") = true from by rfl]

/-- Claim C1, corrected: the heuristic batteries and the motive scorer do
respect the declared ranges — every produced metric score is in `[0, 100]`,
every confidence and motive strength in `[0, 1]`, and the path score stays
in `[0, 100]` over in-range metrics with nonnegative weights — but the
"AI Council Review" metric is **not** clamped: its score is the regex-parsed
`N` of `score: N/100` verbatim (80.0 only when no match), so it exceeds 100
whenever the free-text synthesis names an `N > 100`. -/
theorem C1_range_invariants :
    (∀ (cfg : HeuristicScorerConfig) (path : PathType) (input : AssessmentInput)
        (viols : List PatternViolation),
      ∀ m ∈ HeuristicScorer.generate_metrics_for_path cfg path input viols,
        (0 ≤ m.score ∧ m.score ≤ 100) ∧ (0 ≤ m.confidence ∧ m.confidence ≤ 1)) ∧
    (∀ (path : PathType) (input : AssessmentInput),
      ∀ mv ∈ MicroMotiveScorer.identify_micro_motives path input,
        0 ≤ mv.strength ∧ mv.strength ≤ 1) ∧
    (∀ metrics : List ScoringMetric,
      (∀ m ∈ metrics, (0 ≤ m.score ∧ m.score ≤ 100) ∧ 0 ≤ m.weight) →
      0 ≤ AssessmentEngine.calculate_path_score metrics ∧
        AssessmentEngine.calculate_path_score metrics ≤ 100) ∧
    (∀ (synthesis : Str) (responses : List (String × Str)),
      (parse_score_estimation synthesis = none →
        (councilMetric (buildInsights synthesis responses)).score = 80) ∧
      (∀ n : Nat, parse_score_estimation synthesis = some n →
        (councilMetric (buildInsights synthesis responses)).score = (n : ℚ))) :=
  ⟨heuristic_metrics_range, motive_strength_range, path_score_range,
    councilMetric_score⟩

/-- Witness for C1 at concrete inputs: the empty metric list, and a synthesis
whose parsed score is 90. -/
theorem C1_range_invariants_witness :
    (0 ≤ AssessmentEngine.calculate_path_score [] ∧
      AssessmentEngine.calculate_path_score [] ≤ 100) ∧
    (councilMetric (buildInsights "score: 90/100".data [])).score =
      ((90 : Nat) : ℚ) :=
  ⟨C1_range_invariants.2.2.1 [] (by simp),
   (C1_range_invariants.2.2.2 "score: 90/100".data []).2 90 (by decide)⟩

/-- Counterexample to C1 as stated: for the synthesis `"score: 250/100"` —
an `N` the regex extracts — `enhance_metrics` appends an "AI Council Review"
metric whose score is 250, outside `[0, 100]`. -/
theorem C1_council_score_cex :
    enhance_metrics [] (some (buildInsights "score: 250/100".data []))
        PathType.technical =
      [councilMetric (buildInsights "score: 250/100".data [])] ∧
    (councilMetric (buildInsights "score: 250/100".data [])).name =
      "AI Council Review" ∧
    100 < (councilMetric (buildInsights "score: 250/100".data [])).score := by
  refine ⟨rfl, rfl, ?_⟩
  have h := (councilMetric_score "score: 250/100".data []).2 250 (by decide)
  rw [h]
  norm_num

/-! ## Claim C2 -/

/-- Claim C2, corrected: `AssessmentEngine.assess` never invokes the pattern
scanner and returns, for **every** input, a metadata mapping holding exactly
the assessment mode and the ML flag — no pattern-check summary block.  The
penalty subtraction the claim describes lives only in
`HeuristicScorer._analyze_code_quality` (which this engine never calls):
with violations supplied and checks enabled, the score is the clamp of the
same pre-penalty base minus `calculate_pattern_penalty`. -/
theorem C2_engine_no_pattern_integration :
    (∀ (version : String) (input : AssessmentInput) (now_ms : Nat)
        (elapsed_ms : ℚ),
      (AssessmentEngine.assess version input now_ms elapsed_ms).metadata =
        [("assessment_mode", MetaVal.str "heuristic"),
         ("ml_available", MetaVal.bool false)]) ∧
    (∀ (cfg : HeuristicScorerConfig) (text : Str)
        (viols : List PatternViolation),
      viols ≠ [] → cfg.pattern_checks_enabled = true →
      HeuristicScorer.analyze_code_quality cfg text viols =
        min 100.0 (max 0.0 (HeuristicScorer.code_quality_base text -
          calculate_pattern_penalty viols
            (HeuristicScorer.pattern_penalty_weights cfg)
            cfg.pattern_penalty_max)) ∧
      HeuristicScorer.analyze_code_quality cfg text [] =
        min 100.0 (max 0.0 (HeuristicScorer.code_quality_base text))) := by
  constructor
  · intro version input now_ms elapsed_ms
    rfl
  · intro cfg text viols hv hcfg
    have hne : viols.isEmpty = false := by
      cases viols with
      | nil => exact absurd rfl hv
      | cons a t => rfl
    constructor
    · simp only [HeuristicScorer.analyze_code_quality, hne, hcfg,
        Bool.not_false, Bool.and_self, if_true]
    · simp only [HeuristicScorer.analyze_code_quality, List.isEmpty_nil,
        Bool.not_true, Bool.false_and, Bool.false_eq_true, if_false]

/-- Counterexample to C2 as stated: on a code submission containing a bare
`except:` — where the scanner does find a violation — the engine's result
metadata holds only the mode and ML keys, no pattern-check summary block. -/
theorem C2_no_pattern_metadata_cex :
    (AssessmentEngine.assess "1.0" bareExceptInput 0 0).metadata.map Prod.fst =
      ["assessment_mode", "ml_available"] ∧
    detect_pattern_violations bareExceptCode DEFAULT_PATTERN_RULES ≠ [] := by
  exact ⟨rfl, by decide⟩

/-- Witness for C2 at a concrete input (violations present, checks on). -/
theorem C2_engine_no_pattern_integration_witness :
    HeuristicScorer.analyze_code_quality defaultHeuristicConfig
        helloWorldText
        [{ pattern := "p", line := 1, code := "", description := "",
           severity := "medium" }] =
      min 100.0 (max 0.0 (HeuristicScorer.code_quality_base helloWorldText -
        calculate_pattern_penalty
          [{ pattern := "p", line := 1, code := "", description := "",
             severity := "medium" }]
          (HeuristicScorer.pattern_penalty_weights defaultHeuristicConfig)
          defaultHeuristicConfig.pattern_penalty_max)) ∧
    HeuristicScorer.analyze_code_quality defaultHeuristicConfig
        helloWorldText [] =
      min 100.0 (max 0.0 (HeuristicScorer.code_quality_base helloWorldText)) :=
  C2_engine_no_pattern_integration.2 defaultHeuristicConfig helloWorldText
    [{ pattern := "p", line := 1, code := "", description := "",
       severity := "medium" }]
    (by simp) rfl
